import Mathlib

/-!
# pmm-dump: the command dispatcher of `cmd/pmm-dump/main.go`

A shallow embedding of the `export`, `import` and `show-meta` cases of `main`,
and of the chunk check `validateQAN` of `internal/test/e2e/qan_test.go`.

`main` is a straight-line program over the parsed flags that calls helpers of
the same package and of `pkg/...`, logs warnings and stops the process with
`log.Fatal`.  A run is embedded as a value of `Run`: the events it produced, in
order, and either its result or the fatal exit that stopped it.  Helpers whose
bodies live outside `main.go` are fields of `World`; each of them is called at
most once in a run, so one result per helper describes the run.
-/

namespace PmmDump

/-! ## Data -/

/-- The point in time denoted by a `time.Time` without monotonic reading, in
nanoseconds.  Every time of `main` is such a value: `ParseInLocation` returns
one, `UTC()` strips the monotonic reading of `time.Now()` and `Add` keeps it
stripped. -/
abbrev Time := Int

/-- `time.Duration`, in nanoseconds. -/
abbrev Duration := Int

/-- `time.Hour`. -/
def Hour : Duration := 3600 * 1000000000

/-- `t.After(u)`. -/
def Time.After (t u : Time) : Bool := decide (u < t)

/-- `t.Add(d)`. -/
def Time.Add (t : Time) (d : Duration) : Time := t + d

/-- `dump.PMMServerService` as `main` reads it. -/
structure PMMServerService where
  Name : String
  NodeID : String
  NodeName : String
  AgentsIDs : List String
deriving DecidableEq, Repr

/-- `dump.Meta` as `main` and the tests read it (`Version` holds the three git
strings of the producing binary, `PMMTimezone` is a `*string`). -/
structure Meta where
  GitBranch : String
  GitCommit : String
  GitVersion : String
  PMMServerVersion : String
  MaxChunkSize : Int
  PMMTimezone : Option String
  Arguments : String
  VMDataFormat : String
  PMMServerServices : List PMMServerService
deriving DecidableEq, Repr

/-- The two URLs of the value returned by `getPMMConfig`. -/
structure PMMConfig where
  VictoriaMetricsURL : String
  ClickHouseURL : String
deriving DecidableEq, Repr

/-- Modelled from the spec: `transferer.Threshold` is declared in
`pkg/transferer`; the spec describes a threshold as a metric name with a *max*
and a *critical* ceiling. -/
structure Threshold where
  Key : String
  MaxLoad : Nat
  CriticalLoad : Nat
deriving DecidableEq, Repr

/-- Modelled from the spec: the error values returned by `t.Import`.  The spec
gives a 413 answer "a dedicated error kind"; `tooLarge` is that kind and `text`
is what `%v` prints. -/
structure GoError where
  text : String
  tooLarge : Bool
deriving DecidableEq, Repr

/-- `victoriametrics.ErrIsRequestEntityTooLarge`. -/
def ErrIsRequestEntityTooLarge (err : GoError) : Bool := err.tooLarge

/-- The kind of a `dump.Source`. -/
inductive Source
  | victoriaMetrics
  | clickHouse
deriving DecidableEq, Repr

/-- A chunk descriptor (`dump.ChunkMeta`): its source and its position. -/
structure ChunkMeta where
  source : Source
  index : Nat
deriving DecidableEq, Repr

/-- The flags `main` reads, after kingpin has parsed the command line. -/
structure Flags where
  pmmURL : String
  dumpCore : Bool
  dumpQAN : Bool
  allowInsecureCerts : Bool
  dumpPath : String
  workersCount : Int
  vmNativeData : Bool
  start : String
  end_ : String
  tsSelector : String
  where_ : String
  instances : List String
  dashboards : List String
  chunkTimeRange : Duration
  chunkRows : Int
  ignoreLoad : Bool
  maxLoad : String
  criticalLoad : String
  stdout : Bool
  exportServicesInfo : Bool
  vmContentLimit : Nat
  prettifyMeta : Bool
deriving Repr

/-! ## Events and runs -/

/-- What a run does that can be observed from outside. -/
inductive Event
  | newClientHTTP
  | parseURL
  | auth
  | getPMMConfig
  | checkVersionSupport
  | getDashboardSelectors (dashboards instances : List String)
  | prepareVictoriaMetricsSource (selectors : List String) (native : Bool) (limit : Nat)
  | prepareClickHouseSource (whereClause : String)
  | checkPiped
  | readMetaFromDump (path : String) (piped : Bool)
  | createFile (path : String) (stdout : Bool)
  | getFile (path : String) (piped : Bool)
  | transfererNew (sources : List Source) (workers : Int)
  | splitTimeRangeIntoChunks (startTime endTime : Time) (step : Duration)
  | splitIntoChunks (startTime endTime : Time) (rows : Int)
  | composeMeta (native : Bool)
  | newChunkPool (chunks : List ChunkMeta)
  | parseThresholdList (maxLoad criticalLoad : String)
  | newLoadChecker (thresholds : List Threshold)
  | transferExport (m : Meta)
  | transferImport (m : Meta)
  | warn (msg : String)
  | print (text : String)
deriving DecidableEq, Repr

/-- A `log.Fatal` exit: the line of `main.go` that called it, its message and
the error attached with `.Err(err)`; or an exit taken inside a helper. -/
inductive Fatal
  | main (line : Nat) (msg : String) (err : Option String)
  | helper (name : String) (msg : String)
deriving DecidableEq, Repr

/-- The line of `main.go` of a fatal exit, when it is one of `main`. -/
def Fatal.line : Fatal → Option Nat
  | .main line _ _ => some line
  | .helper _ _ => none

/-- A run: the events so far and the result, or the fatal exit. -/
structure Run (α : Type) where
  log : List Event
  res : Except Fatal α

/-- A step that only returns. -/
def Run.ret {α : Type} (a : α) : Run α := ⟨[], .ok a⟩

/-- Sequencing: a fatal exit stops the run, the events are kept. -/
def Run.andThen {α β : Type} (x : Run α) (k : α → Run β) : Run β :=
  match x.res with
  | .error e => ⟨x.log, .error e⟩
  | .ok a => ⟨x.log ++ (k a).log, (k a).res⟩

instance : Monad Run where
  pure := Run.ret
  bind := Run.andThen

/-- Record one event. -/
def emit (e : Event) : Run Unit := ⟨[e], .ok ()⟩

/-- Stop with `log.Fatal`. -/
def fatal {α : Type} (f : Fatal) : Run α := ⟨[], .error f⟩

/-- A helper that returns nothing but may stop the process itself. -/
def callMayAbort (e : Event) (name : String) (r : Option String) : Run Unit := do
  emit e
  match r with
  | some msg => fatal (.helper name msg)
  | none => pure ()

/-- A helper that returns a value or stops the process itself. -/
def callOrAbort {α : Type} (e : Event) (name : String) (r : Except String α) : Run α := do
  emit e
  match r with
  | .error msg => fatal (.helper name msg)
  | .ok a => pure a

/-- The results of the helpers that `main` calls and whose bodies are outside
`main.go`, and of the clock. -/
structure World where
  parseURL : Option String
  auth : Option String
  getPMMConfig : Except String PMMConfig
  checkVersionSupport : Option String
  getDashboardSelectors : Except String (List String)
  prepareVictoriaMetricsSource : Except String Bool
  prepareClickHouseSource : Except String Bool
  checkPiped : Except String Bool
  readMetaFromDump : Except String Meta
  createFile : Except String Unit
  getFile : Except String Unit
  transfererNew : Except String Unit
  splitTimeRangeIntoChunks : Time → Time → Duration → List ChunkMeta
  splitIntoChunks : Time → Time → Int → Except String (List ChunkMeta)
  composeMeta : Except String Meta
  newChunkPool : Except String Unit
  ParseThresholdList : String → String → Except String (List Threshold)
  transferExport : Except String Unit
  transferImport : Except GoError Unit
  parseTime : String → Except String Time
  now : Time
  ByteCountDecimal : Int → String
  ByteCountBinary : Int → String
  marshalIndent : Meta → Except String String

/-- A helper that returns `(value, err)`, followed by the `if err != nil`
block of `main` that stops with `onErr err`. -/
def callOrFatal {ε α : Type} (e : Event) (r : Except ε α) (onErr : ε → Fatal) :
    Run α := do
  emit e
  match r with
  | .error err => fatal (onErr err)
  | .ok a => pure a

/-! ## The `import` case (lines 260-354) -/

/-- Lines 261-283: client, authentication, data-source check, PMM config,
version check and `checkPiped`. -/
def importPrelude (w : World) (f : Flags) : Run (PMMConfig × Bool) := do
  emit .newClientHTTP
  callMayAbort .parseURL "parseURL" w.parseURL
  callMayAbort .auth "auth" w.auth
  if !(f.dumpQAN || f.dumpCore) then
    fatal (.main 268 "Please, specify at least one data source" none)
  let pmmConfig ← callOrFatal .getPMMConfig w.getPMMConfig
    (fun err => .main 275 "Failed to get PMM config" (some err))
  callMayAbort .checkVersionSupport "checkVersionSupport" w.checkVersionSupport
  let piped ← callOrFatal .checkPiped w.checkPiped
    (fun err => .main 282 "Failed to check if a program is piped" (some err))
  pure (pmmConfig, piped)

/-- Lines 285-310: the value of `*vmNativeData` after the pipe / metadata
resolution. -/
def resolveEncoding (w : World) (f : Flags) (piped : Bool) : Run Bool := do
  if piped then
    if f.vmNativeData then
      emit (.warn "Cannot read meta file during import in a pipeline. Using VictoriaMetrics' native export format because `--vm-native-data` was provided")
    else
      emit (.warn "Cannot read meta file during import in a pipeline. Using VictoriaMetrics' JSON export format")
    pure f.vmNativeData
  else
    emit (.readMetaFromDump f.dumpPath false)
    match w.readMetaFromDump with
    | .error err =>
      emit (.warn ("Can't show meta: " ++ err))
      pure true
    | .ok dumpMeta =>
      if dumpMeta.VMDataFormat = "" then
        emit (.warn "Meta file doesn't contain `vm-data-format`. Using VictoriaMetrics' native export format")
        pure true
      else if dumpMeta.VMDataFormat = "native" then
        pure true
      else if dumpMeta.VMDataFormat = "json" then
        pure false
      else
        emit (.warn "Meta file contains invalid `vm-data-format`. Using VictoriaMetrics' JSON export format")
        pure false

/-- The message of line 313. -/
def contentLimitMsg : String := "`--vm-content-limit` is not supported with native data format"

/-- Lines 312-314. -/
def encodingCheck (vmNativeData : Bool) (vmContentLimit : Nat) : Run Unit :=
  if vmNativeData && decide (vmContentLimit > 0) then
    fatal (.main 313 contentLimitMsg none)
  else
    pure ()

/-- Lines 349-351: the guidance given for a 413 answer. -/
def importGuidance : String :=
  ". Consider to use \"vm-content-limit\" option. Also, you can decrease \"chunk-time-range\" or \"chunk-rows\" values. " ++
    "If you use nginx or Apache HTTP Server, consider increasing the maximum size of the client " ++
    "request body in their configuration"

/-- Lines 347-352: the text appended to the message of a failed import. -/
def additionalInfo (err : GoError) : String :=
  if ErrIsRequestEntityTooLarge err then
    importGuidance
  else
    ""

/-- Line 353: `"Failed to import: %v%s"`. -/
def importFailureMsg (err : GoError) : String :=
  "Failed to import: " ++ err.text ++ additionalInfo err

/-- Lines 316-354: sources, dump file, transferer and the import itself. -/
def importTransfer (w : World) (f : Flags) (piped : Bool) (vmNativeData : Bool) :
    Run Unit := do
  let okVM ← callOrAbort (.prepareVictoriaMetricsSource [] vmNativeData f.vmContentLimit)
    "prepareVictoriaMetricsSource" w.prepareVictoriaMetricsSource
  let sources : List Source := if okVM then [Source.victoriaMetrics] else []
  let okCH ← callOrAbort (.prepareClickHouseSource f.where_)
    "prepareClickHouseSource" w.prepareClickHouseSource
  let sources := if okCH then sources ++ [Source.clickHouse] else sources
  if f.dumpPath = "" && piped == false then
    fatal (.main 327 "Please, specify path to dump file" none)
  callOrFatal (.getFile f.dumpPath piped) w.getFile
    (fun err => .main 332 ("Failed to get file: " ++ err) none)
  callOrFatal (.transfererNew sources f.workersCount) w.transfererNew
    (fun err => .main 338 ("Failed to setup import: " ++ err) none)
  let m ← callOrFatal (.composeMeta vmNativeData) w.composeMeta
    (fun err => .main 343 "Failed to compose meta" (some err))
  callOrFatal (.transferImport m) w.transferImport
    (fun err => .main 353 (importFailureMsg err) none)

/-- The `import` case of `main`. -/
def importCmd (w : World) (f : Flags) : Run Unit := do
  let (_, piped) ← importPrelude w f
  let vmNativeData ← resolveEncoding w f piped
  encodingCheck vmNativeData f.vmContentLimit
  importTransfer w f piped vmNativeData

/-! ## The `export` case (lines 121-259) -/

/-- Lines 141-147: the warning about a filter given for one side only. -/
def filterWarning (f : Flags) : Run Unit := do
  if f.dumpQAN && f.dumpCore && f.instances.length == 0 then
    if f.where_ = "" && (f.tsSelector != "" || f.dashboards.length > 0) then
      emit (.warn "Filter for core dump found, but not for QAN. QAN metrics for all metrics would be exported")
    else if f.where_ != "" && f.tsSelector = "" && f.dashboards.length == 0 then
      emit (.warn "Filter for QAN found, but not for core dump. Core metrics for all metrics would be exported")

/-- Lines 165-167: one `\x7bservice_name="X"\x7d` selector appended per instance. -/
def appendInstanceSelectors (selectors instances : List String) : List String :=
  instances.foldl (fun acc serviceName => acc ++ ["\x7bservice_name=\"" ++ serviceName ++ "\"\x7d"])
    selectors

/-- Lines 162-168: the selectors handed to the VictoriaMetrics source. -/
def coreSelectors (f : Flags) (selectors : List String) : List String :=
  if f.tsSelector ≠ "" then
    selectors ++ [f.tsSelector]
  else if selectors.length == 0 && f.instances.length > 0 then
    appendInstanceSelectors selectors f.instances
  else
    selectors

/-- Lines 175-180: the loop that extends `*where` by one condition per
instance, `i` being the index of the first instance of the list. -/
def appendInstanceConds : Nat → String → List String → String
  | _, acc, [] => acc
  | i, acc, serviceName :: rest =>
    appendInstanceConds (i + 1)
      ((if i ≠ 0 then acc ++ " AND " else acc) ++ ("service_name='" ++ serviceName ++ "'")) rest

/-- Lines 174-181: the value of `*where` handed to the ClickHouse source. -/
def qanWhere (f : Flags) : String :=
  if f.where_ = "" && f.instances.length > 0 then
    appendInstanceConds 0 f.where_ f.instances
  else
    f.where_

/-- Lines 122-186: client, authentication, filter warning, PMM config, version
check, selectors and the two sources. -/
def exportSetup (w : World) (f : Flags) : Run (List Source) := do
  emit .newClientHTTP
  callMayAbort .parseURL "parseURL" w.parseURL
  callMayAbort .auth "auth" w.auth
  if !(f.dumpQAN || f.dumpCore) then
    fatal (.main 138 "Please, specify at least one data source" none)
  filterWarning f
  let _pmmConfig ← callOrFatal .getPMMConfig w.getPMMConfig
    (fun err => .main 153 "Failed to get PMM config" (some err))
  callMayAbort .checkVersionSupport "checkVersionSupport" w.checkVersionSupport
  let selectors ← callOrFatal (.getDashboardSelectors f.dashboards f.instances)
    w.getDashboardSelectors
    (fun err => .main 160 ("Error retrieving dashboard selectors: " ++ err) none)
  let selectors := coreSelectors f selectors
  let okVM ← callOrAbort (.prepareVictoriaMetricsSource selectors f.vmNativeData f.vmContentLimit)
    "prepareVictoriaMetricsSource" w.prepareVictoriaMetricsSource
  let sources : List Source := if okVM then [Source.victoriaMetrics] else []
  let okCH ← callOrAbort (.prepareClickHouseSource (qanWhere f))
    "prepareClickHouseSource" w.prepareClickHouseSource
  let sources := if okCH then sources ++ [Source.clickHouse] else sources
  pure sources

/-- A step of `main` that has a value or takes a fatal exit, without a call. -/
def orFatal {ε α : Type} (r : Except ε α) (onErr : ε → Fatal) : Run α :=
  match r with
  | .error err => fatal (onErr err)
  | .ok a => pure a

/-- Lines 188-206: `endTime` and `startTime`, returned as `(startTime, endTime)`. -/
def resolveTimes (w : World) (f : Flags) : Run (Time × Time) := do
  let endTime ←
    if f.end_ ≠ "" then
      orFatal (w.parseTime f.end_)
        (fun err => .main 193 ("Error parsing end date-time: " ++ err) none)
    else
      pure w.now
  let startTime ←
    if f.start ≠ "" then
      orFatal (w.parseTime f.start)
        (fun err => .main 202 ("Error parsing start date-time: " ++ err) none)
    else
      pure (endTime.Add (-1 * Hour * 4))
  pure (startTime, endTime)

/-- Lines 208-210. -/
def rangeCheck (startTime endTime : Time) : Run Unit :=
  if startTime.After endTime then
    fatal (.main 209 "Invalid time range: start > end" none)
  else
    pure ()

/-- Lines 223-235: the chunks of the plan. -/
def exportChunks (w : World) (f : Flags) (startTime endTime : Time) :
    Run (List ChunkMeta) := do
  let chunks : List ChunkMeta := []
  let chunks ←
    if f.dumpCore then do
      emit (.splitTimeRangeIntoChunks startTime endTime f.chunkTimeRange)
      pure (chunks ++ w.splitTimeRangeIntoChunks startTime endTime f.chunkTimeRange)
    else
      pure chunks
  if f.dumpQAN then
    let chChunks ← callOrFatal (.splitIntoChunks startTime endTime f.chunkRows)
      (w.splitIntoChunks startTime endTime f.chunkRows)
      (fun err => .main 232 ("Failed to create clickhouse chunks: " ++ err) none)
    pure (chunks ++ chChunks)
  else
    pure chunks

/-- Lines 212-245: dump file, transferer, chunks, metadata and chunk pool. -/
def exportPlan (w : World) (f : Flags) (sources : List Source) (startTime endTime : Time) :
    Run Meta := do
  callOrFatal (.createFile f.dumpPath f.stdout) w.createFile
    (fun err => .main 214 ("Failed to create file: " ++ err) none)
  callOrFatal (.transfererNew sources f.workersCount) w.transfererNew
    (fun err => .main 220 ("Failed to setup export: " ++ err) none)
  let chunks ← exportChunks w f startTime endTime
  let m ← callOrFatal (.composeMeta f.vmNativeData) w.composeMeta
    (fun err => .main 239 "Failed to compose meta" (some err))
  callOrFatal (.newChunkPool chunks) w.newChunkPool
    (fun err => .main 244 ("Failed to generate chunk pool: " ++ err) none)
  pure m

/-- Lines 247-253: the thresholds handed to the load checker. -/
def loadThresholds (w : World) (f : Flags) : Run (List Threshold) :=
  if !f.ignoreLoad then
    callOrFatal (.parseThresholdList f.maxLoad f.criticalLoad)
      (w.ParseThresholdList f.maxLoad f.criticalLoad)
      (fun err => .main 251 "Failed to parse max/critical load args" (some err))
  else
    pure []

/-- Lines 247-259: thresholds, load checker and the export itself. -/
def exportTransfer (w : World) (f : Flags) (m : Meta) : Run Unit := do
  let thresholds ← loadThresholds w f
  emit (.newLoadChecker thresholds)
  callOrFatal (.transferExport m) w.transferExport
    (fun err => .main 258 ("Failed to export: " ++ err) none)

/-- Lines 212-259: what follows the time-range check. -/
def exportAfterCheck (w : World) (f : Flags) (sources : List Source)
    (startTime endTime : Time) : Run Unit := do
  let m ← exportPlan w f sources startTime endTime
  exportTransfer w f m

/-- The `export` case of `main`. -/
def exportCmd (w : World) (f : Flags) : Run Unit := do
  let sources ← exportSetup w f
  let (startTime, endTime) ← resolveTimes w f
  rangeCheck startTime endTime
  exportAfterCheck w f sources startTime endTime

/-! ## Concrete runs -/

/-- The metadata of the dump written by `generateFakeDump`
(`contentlimit_test.go`): only `VMDataFormat` is set. -/
def fakeDumpMeta : Meta :=
  { GitBranch := "", GitCommit := "", GitVersion := "", PMMServerVersion := "",
    MaxChunkSize := 0, PMMTimezone := none, Arguments := "", VMDataFormat := "json",
    PMMServerServices := [] }

/-- A world in which every helper succeeds, the input is a file holding the
fake dump, and the clock reads 2024-01-01T12:00:00Z. -/
def okWorld : World :=
  { parseURL := none
    auth := none
    getPMMConfig := .ok { VictoriaMetricsURL := "http://pmm/prometheus", ClickHouseURL := "tcp://pmm:9000" }
    checkVersionSupport := none
    getDashboardSelectors := .ok []
    prepareVictoriaMetricsSource := .ok true
    prepareClickHouseSource := .ok false
    checkPiped := .ok false
    readMetaFromDump := .ok fakeDumpMeta
    createFile := .ok ()
    getFile := .ok ()
    transfererNew := .ok ()
    splitTimeRangeIntoChunks := fun _ _ _ => []
    splitIntoChunks := fun _ _ _ => .ok []
    composeMeta := .ok fakeDumpMeta
    newChunkPool := .ok ()
    ParseThresholdList := fun maxLoad criticalLoad =>
      if maxLoad = "" ∨ criticalLoad = "" then .error "empty threshold list" else .ok []
    transferExport := .ok ()
    transferImport := .ok ()
    parseTime := fun s =>
      if s = "2024-01-01T10:00:00Z" then .ok 1704103200000000000
      else if s = "2024-01-01T06:00:00Z" then .ok 1704088800000000000
      else .error "cannot parse"
    now := 1704110400000000000
    ByteCountDecimal := fun _ => "0 B"
    ByteCountBinary := fun _ => "0 B"
    marshalIndent := fun _ => .ok "\x7b\x7d" }

/-- The flags of `pmm-dump import -d dump.tar.gz --pmm-url http://pmm` with the
defaults of every other flag. -/
def plainFlags : Flags :=
  { pmmURL := "http://pmm", dumpCore := true, dumpQAN := false, allowInsecureCerts := false,
    dumpPath := "dump.tar.gz", workersCount := 0, vmNativeData := false, start := "",
    end_ := "", tsSelector := "", where_ := "", instances := [], dashboards := [],
    chunkTimeRange := 5 * 60 * 1000000000, chunkRows := 1000, ignoreLoad := false,
    maxLoad := "CPU=70,RAM=80,MYRAM=10", criticalLoad := "CPU=90,RAM=90,MYRAM=30",
    stdout := false, exportServicesInfo := false, vmContentLimit := 0, prettifyMeta := true }

/-- The world of `okWorld` with the dump arriving on a pipe. -/
def pipedWorld : World := { okWorld with checkPiped := .ok true }

/-! ## Kinds of events -/

/-- The steps the specification counts as network requests: authentication,
server config and version lookup, dashboard resolution, ClickHouse connection. -/
def Event.isNetworkRequest : Event → Bool
  | .auth => true
  | .getPMMConfig => true
  | .checkVersionSupport => true
  | .getDashboardSelectors _ _ => true
  | .prepareClickHouseSource _ => true
  | _ => false

/-- The steps that read, create or open the dump file. -/
def Event.isFileAccess : Event → Bool
  | .readMetaFromDump _ _ => true
  | .createFile _ _ => true
  | .getFile _ _ => true
  | _ => false

/-- The steps of `main` from the creation or opening of the dump file on:
everything after line 210 of an export and after line 325 of an import. -/
def Event.isTransferStep : Event → Bool
  | .createFile _ _ => true
  | .getFile _ _ => true
  | .transfererNew _ _ => true
  | .splitTimeRangeIntoChunks _ _ _ => true
  | .splitIntoChunks _ _ _ => true
  | .composeMeta _ => true
  | .newChunkPool _ => true
  | .parseThresholdList _ _ => true
  | .newLoadChecker _ => true
  | .transferExport _ => true
  | .transferImport _ => true
  | _ => false

/-- The flags of `pmm-dump export -d dump.tar.gz --pmm-url http://pmm
--start-ts 2024-01-01T10:00:00Z --end-ts 2024-01-01T06:00:00Z`. -/
def lateStartFlags : Flags :=
  { pmmURL := "http://pmm", dumpCore := true, dumpQAN := false, allowInsecureCerts := false,
    dumpPath := "dump.tar.gz", workersCount := 0, vmNativeData := false,
    start := "2024-01-01T10:00:00Z", end_ := "2024-01-01T06:00:00Z", tsSelector := "",
    where_ := "", instances := [], dashboards := [],
    chunkTimeRange := 5 * 60 * 1000000000, chunkRows := 1000, ignoreLoad := false,
    maxLoad := "CPU=70,RAM=80,MYRAM=10", criticalLoad := "CPU=90,RAM=90,MYRAM=30",
    stdout := false, exportServicesInfo := false, vmContentLimit := 0, prettifyMeta := true }

/-- A world like `okWorld` whose dump declares the native format. -/
def nativeDumpWorld : World :=
  { okWorld with readMetaFromDump := .ok { fakeDumpMeta with VMDataFormat := "native" } }

/-- The flags of `pmm-dump import -d dump.tar.gz --pmm-url http://pmm
--vm-content-limit 10024`. -/
def limitFlags : Flags := { plainFlags with vmContentLimit := 10024 }

/-- The flags of `pmm-dump export -d dump.tar.gz --pmm-url http://pmm
--end-ts 2024-01-01T06:00:00Z`, without `--start-ts`. -/
def endOnlyFlags : Flags := { plainFlags with end_ := "2024-01-01T06:00:00Z" }

/-- The steps of lines 247-259: threshold parsing, load checker, export. -/
def Event.isLoadStep : Event → Bool
  | .parseThresholdList _ _ => true
  | .newLoadChecker _ => true
  | .transferExport _ => true
  | _ => false

/-- The flags of `pmm-dump export -d dump.tar.gz --pmm-url http://pmm
--ignore-load --max-load "" --critical-load nonsense`. -/
def ignoreLoadFlags : Flags :=
  { plainFlags with ignoreLoad := true, maxLoad := "", criticalLoad := "nonsense" }

/-- The answer of a proxy that refuses the request body. -/
def tooLargeError : GoError :=
  { text := "non-OK response from victoria metrics: 413 Request Entity Too Large",
    tooLarge := true }

/-- A world like `okWorld` in which the import is refused with a 413. -/
def tooLargeWorld : World := { okWorld with transferImport := .error tooLargeError }

/-! ## The QAN row filter -/

/-- Modelled from the spec: the meaning of the `WHERE` text that ClickHouse
evaluates, for the conditions `main` builds: equalities joined by `AND`. -/
inductive Cond
  | eq (column value : String)
  | and (l r : Cond)
deriving DecidableEq, Repr

/-- The SQL text of a condition. -/
def Cond.render : Cond → String
  | .eq column value => column ++ "='" ++ value ++ "'"
  | .and l r => l.render ++ " AND " ++ r.render

/-- A row, given by the value of each column, passes the condition. -/
def Cond.holds (row : String → String) : Cond → Bool
  | .eq column value => row column == value
  | .and l r => l.holds row && r.holds row

/-- The conjunction of one `service_name` equality per instance. -/
def instanceCond (first : String) (rest : List String) : Cond :=
  rest.foldl (fun acc serviceName => Cond.and acc (Cond.eq "service_name" serviceName))
    (Cond.eq "service_name" first)

/-- The flags of `pmm-dump export --dump-qan --instance a --instance b`. -/
def twoInstanceFlags : Flags := { plainFlags with dumpQAN := true, instances := ["a", "b"] }

/-- A QAN row of service `a`. -/
def rowOfA (column : String) : String := if column = "service_name" then "a" else ""

/-! ## The `show-meta` case (lines 355-393) -/

/-- `%v` of a `[]string`. -/
def fmtStrings (xs : List String) : String := "[" ++ " ".intercalate xs ++ "]"

/-- Lines 379-384: the loop over the services. -/
def printServices : List PMMServerService → Run Unit
  | [] => pure ()
  | s :: rest => do
    emit (.print ("\t- Name: " ++ s.Name ++ "\n"))
    emit (.print ("\t  Node ID: " ++ s.NodeID ++ "\n"))
    emit (.print ("\t  Node Name: " ++ s.NodeName ++ "\n"))
    emit (.print ("\t  Agents ID: " ++ fmtStrings s.AgentsIDs ++ "\n"))
    printServices rest

/-- Lines 370-385: the human readable form. -/
def printPretty (w : World) (m : Meta) : Run Unit := do
  emit (.print ("Build: " ++ m.GitCommit ++ "\n"))
  emit (.print ("PMM Version: " ++ m.PMMServerVersion ++ "\n"))
  emit (.print ("Max Chunk Size: " ++ w.ByteCountDecimal m.MaxChunkSize ++ " ("
    ++ w.ByteCountBinary m.MaxChunkSize ++ ")\n"))
  match m.PMMTimezone with
  | some tz => emit (.print ("PMM Timezone: " ++ tz ++ "\n"))
  | none => pure ()
  emit (.print ("Arguments: " ++ m.Arguments ++ "\n"))
  if m.PMMServerServices.length > 0 then
    emit (.print "Services:\n")
    printServices m.PMMServerServices

/-- The `show-meta` case of `main`. -/
def showMetaCmd (w : World) (f : Flags) : Run Unit := do
  let piped ← callOrFatal .checkPiped w.checkPiped
    (fun err => .main 358 "Failed to check if a program is piped" (some err))
  if f.dumpPath = "" && piped == false then
    fatal (.main 361 "Please, specify path to dump file" none)
  let m ← callOrFatal (.readMetaFromDump f.dumpPath piped) w.readMetaFromDump
    (fun err => .main 366 ("Can't show meta: " ++ err) none)
  if f.prettifyMeta then
    printPretty w m
  else
    let jsonMeta ← orFatal (w.marshalIndent m)
      (fun err => .main 389 ("Failed to format meta as json: " ++ err) none)
    emit (.print (jsonMeta ++ "\n"))

/-- The four lines printed for one service. -/
def serviceLines (s : PMMServerService) : List String :=
  ["\t- Name: " ++ s.Name ++ "\n",
   "\t  Node ID: " ++ s.NodeID ++ "\n",
   "\t  Node Name: " ++ s.NodeName ++ "\n",
   "\t  Agents ID: " ++ fmtStrings s.AgentsIDs ++ "\n"]

/-- The output the specification describes for `show-meta --prettify`: build,
PMM version, chunk size, timezone if set, arguments, and a services section
when there are services. -/
def prettyLines (w : World) (m : Meta) : List String :=
  ["Build: " ++ m.GitCommit ++ "\n",
   "PMM Version: " ++ m.PMMServerVersion ++ "\n",
   "Max Chunk Size: " ++ w.ByteCountDecimal m.MaxChunkSize ++ " ("
     ++ w.ByteCountBinary m.MaxChunkSize ++ ")\n"]
    ++ (match m.PMMTimezone with
        | some tz => ["PMM Timezone: " ++ tz ++ "\n"]
        | none => [])
    ++ ["Arguments: " ++ m.Arguments ++ "\n"]
    ++ (match m.PMMServerServices with
        | [] => []
        | s :: rest => "Services:\n" :: (List.map serviceLines (s :: rest)).flatten)

/-- A metadata record with a timezone and two services. -/
def sampleMeta : Meta :=
  { GitBranch := "main", GitCommit := "0a1b2c3", GitVersion := "v0.7.0",
    PMMServerVersion := "2.41.0", MaxChunkSize := 617, PMMTimezone := some "UTC",
    Arguments := "export --dump-qan", VMDataFormat := "json",
    PMMServerServices :=
      [{ Name := "mongo", NodeID := "n1", NodeName := "node-1", AgentsIDs := ["a1", "a2"] },
       { Name := "mysql", NodeID := "n2", NodeName := "node-2", AgentsIDs := [] }] }

/-- A world like `okWorld` whose dump holds `sampleMeta`. -/
def sampleMetaWorld : World :=
  { okWorld with readMetaFromDump := .ok sampleMeta,
                 ByteCountDecimal := fun _ => "617 B", ByteCountBinary := fun _ => "617 B" }

/-! ## The chunk check of `qan_test.go` (lines 111-141) -/

/-- A value of a row as `tr.Read()` returns it: a Go string, or a value of
another dynamic type, which `!=` never finds equal to a string. -/
inductive Value
  | str (s : String)
  | other (text : String)
deriving DecidableEq, Repr

/-- A `*sql.ColumnType`, of which `validateQAN` reads the name. -/
structure ColumnType where
  Name : String
deriving DecidableEq, Repr

/-- What the reader of `pkg/clickhouse/tsv` yields on a chunk: the rows the
calls of `tr.Read()` return, in order, until the first call that returns an
error, and that error (`none` for `io.EOF`). -/
structure TSVRead where
  rows : List (List Value)
  err : Option String
deriving DecidableEq, Repr

/-- The errors `validateQAN` returns. -/
inductive ValidateError
  | readTSV (err : String)
  | numberOfValues (expected got : Nat)
  | invalidValue (column expected : String) (got : Option Value)
  | columnNotFound (column : String)
deriving DecidableEq, Repr

/-- Lines 126-134: the loop over `columnTypes` for one pair `k, v` of the
expected map, from index `i` on; the result is the final value of `found`. -/
def checkColumns (values : List Value) (k v : String) :
    Nat → List ColumnType → Bool → Except ValidateError Bool
  | _, [], found => .ok found
  | i, ct :: rest, found =>
    if ct.Name = k then
      if values[i]? ≠ some (.str v) then
        .error (.invalidValue ct.Name v values[i]?)
      else
        checkColumns values k v (i + 1) rest true
    else
      checkColumns values k v (i + 1) rest found

/-- Lines 125-138: the loop over the expected map, a Go map, whose pairs are
visited in some order, each key once. -/
def checkPairs (columnTypes : List ColumnType) (values : List Value) :
    List (String × String) → Except ValidateError Unit
  | [] => .ok ()
  | (k, v) :: rest =>
    match checkColumns values k v 0 columnTypes false with
    | .error e => .error e
    | .ok found =>
      if !found then
        .error (.columnNotFound k)
      else
        checkPairs columnTypes values rest

/-- Lines 113-139: the loop over the rows, ended by the error of the reader. -/
def validateRows (columnTypes : List ColumnType) (equalMap : List (String × String)) :
    List (List Value) → Option String → Except ValidateError Unit
  | [], none => .ok ()
  | [], some err => .error (.readTSV err)
  | values :: rest, err =>
    if values.length ≠ columnTypes.length then
      .error (.numberOfValues columnTypes.length values.length)
    else
      match checkPairs columnTypes values equalMap with
      | .error e => .error e
      | .ok _ => validateRows columnTypes equalMap rest err

/-- `validateQAN`, the reader of `pkg/clickhouse/tsv` being `tsvRead`. -/
def validateQAN (tsvRead : List UInt8 → List ColumnType → TSVRead) (data : List UInt8)
    (columnTypes : List ColumnType) (equalMap : List (String × String)) :
    Except ValidateError Unit :=
  validateRows columnTypes equalMap (tsvRead data columnTypes).rows
    (tsvRead data columnTypes).err

/-- One row passes the check of one pair of the expected map: a column of that
name exists and every column of that name holds the value, as a string. -/
def PairHolds (columnTypes : List ColumnType) (values : List Value) (kv : String × String) :
    Prop :=
  (∃ ct ∈ columnTypes, ct.Name = kv.1)
    ∧ ∀ (i : Nat) (ct : ColumnType), columnTypes[i]? = some ct → ct.Name = kv.1 →
        values[i]? = some (.str kv.2)

/-- A reader that finds no row in any chunk. -/
def noRows (_ : List UInt8) (_ : List ColumnType) : TSVRead := { rows := [], err := none }

/-- A reader that finds one row `mongo, mongodb` in any chunk. -/
def oneRow (_ : List UInt8) (_ : List ColumnType) : TSVRead :=
  { rows := [[.str "mongo", .str "mongodb"]], err := none }

/-- The check the specification describes: the chunk parses, every row has
one value per column, and for every pair of the expected map a column of that
name exists and every row holds the value in the columns of that name. -/
def ChunkMatches (read : TSVRead) (columnTypes : List ColumnType)
    (equalMap : List (String × String)) : Prop :=
  read.err = none
    ∧ (∀ values ∈ read.rows, values.length = columnTypes.length)
    ∧ ∀ kv ∈ equalMap,
        (∃ ct ∈ columnTypes, ct.Name = kv.1)
          ∧ ∀ values ∈ read.rows, ∀ (i : Nat) (ct : ColumnType),
              columnTypes[i]? = some ct → ct.Name = kv.1 → values[i]? = some (.str kv.2)

/-- The flags of `pmm-dump export --dump-qan --instance a --ts-selector
\x7bjob="x"\x7d`: a core filter, no `--where`, one instance. -/
def instanceSelectorFlags : Flags :=
  { plainFlags with dumpQAN := true, instances := ["a"], tsSelector := "\x7bjob=\"x\"\x7d" }

/-- The flags of `pmm-dump export --dump-qan --dashboard MySQL`: neither
`--where` nor `--ts-selector`. -/
def dashboardOnlyFlags : Flags :=
  { plainFlags with dumpQAN := true, dashboards := ["MySQL"] }

/-- The flags of `pmm-dump export --dump-qan --dashboard MySQL --where
service_name='mongo'`: `--where` without `--ts-selector`. -/
def whereDashboardFlags : Flags :=
  { plainFlags with dumpQAN := true, dashboards := ["MySQL"], where_ := "service_name='mongo'" }

/-- The flags of `pmm-dump export --dump-qan --where service_name='mongo'`. -/
def whereOnlyFlags : Flags :=
  { plainFlags with dumpQAN := true, where_ := "service_name='mongo'" }

/-- The encoding the metadata of a dump stands for, `true` being native:
native when the metadata cannot be read or `vm_data_format` is `""` or
`"native"`, JSON for `"json"` and every other string. -/
def encodingOfMeta (r : Except String Meta) : Bool :=
  match r with
  | .error _ => true
  | .ok m => decide (m.VMDataFormat = "" ∨ m.VMDataFormat = "native")

/-- The event, if it hands an encoding to the VictoriaMetrics source or to the
composed metadata of an import, hands `native`, with no selectors and the
content limit `limit`. -/
def Event.hasEncoding (native : Bool) (limit : Nat) : Event → Prop
  | .prepareVictoriaMetricsSource selectors b l => selectors = [] ∧ b = native ∧ l = limit
  | .composeMeta b => b = native
  | _ => True

/-- The event is a read of the metadata of the dump. -/
def Event.isMetaRead : Event → Bool
  | .readMetaFromDump _ _ => true
  | _ => false

/-- A world like `okWorld` in which the import fails on a refused connection. -/
def refusedWorld : World :=
  { okWorld with transferImport := .error { text := "connection refused", tooLarge := false } }

/-- The record of `sampleMeta` written by another version of the tool at the
same commit. -/
def otherVersionMeta : Meta := { sampleMeta with GitVersion := "v0.8.0", GitBranch := "release" }

/-- A world like `sampleMetaWorld` whose dump holds `otherVersionMeta`. -/
def otherVersionWorld : World := { sampleMetaWorld with readMetaFromDump := .ok otherVersionMeta }

/-- The flags of `pmm-dump export --dump-qan --dashboard MySQL --dashboard
MongoDB`: two dashboards, neither `--where` nor `--ts-selector`. -/
def twoDashboardFlags : Flags :=
  { plainFlags with dumpQAN := true, dashboards := ["MySQL", "MongoDB"] }

/-! ## Properties of runs -/

/-- Every fatal exit the run can take satisfies `P`. -/
def Run.FatalSat {α : Type} (x : Run α) (P : Fatal → Prop) : Prop :=
  ∀ e, x.res = .error e → P e

/-- Every event of the run satisfies `Q`. -/
def Run.LogSat {α : Type} (x : Run α) (Q : Event → Prop) : Prop :=
  ∀ ev ∈ x.log, Q ev

/-! ## Basic facts about runs -/

@[simp] theorem Run.res_pure {α : Type} (a : α) : (pure a : Run α).res = .ok a := rfl

@[simp] theorem Run.log_pure {α : Type} (a : α) : (pure a : Run α).log = [] := rfl

@[simp] theorem Run.res_fatal {α : Type} (e : Fatal) : (fatal e : Run α).res = .error e := rfl

@[simp] theorem Run.log_fatal {α : Type} (e : Fatal) : (fatal e : Run α).log = [] := rfl

@[simp] theorem Run.res_emit (e : Event) : (emit e).res = .ok () := rfl

@[simp] theorem Run.log_emit (e : Event) : (emit e).log = [e] := rfl

theorem Run.res_bind {α β : Type} (x : Run α) (k : α → Run β) :
    (x >>= k).res = match x.res with
      | .error e => .error e
      | .ok a => (k a).res := by
  show (Run.andThen x k).res = _
  unfold Run.andThen
  cases x.res <;> rfl

theorem Run.log_bind {α β : Type} (x : Run α) (k : α → Run β) :
    (x >>= k).log = match x.res with
      | .error _ => x.log
      | .ok a => x.log ++ (k a).log := by
  show (Run.andThen x k).log = _
  unfold Run.andThen
  cases x.res <;> rfl

theorem Run.res_bind_ok {α β : Type} {x : Run α} {a : α} (k : α → Run β)
    (h : x.res = .ok a) : (x >>= k).res = (k a).res := by
  rw [Run.res_bind, h]

theorem Run.log_bind_ok {α β : Type} {x : Run α} {a : α} (k : α → Run β)
    (h : x.res = .ok a) : (x >>= k).log = x.log ++ (k a).log := by
  rw [Run.log_bind, h]

theorem Run.res_bind_error {α β : Type} {x : Run α} {e : Fatal} (k : α → Run β)
    (h : x.res = .error e) : (x >>= k).res = .error e := by
  rw [Run.res_bind, h]

theorem Run.log_bind_error {α β : Type} {x : Run α} {e : Fatal} (k : α → Run β)
    (h : x.res = .error e) : (x >>= k).log = x.log := by
  rw [Run.log_bind, h]

/-- The encoding resolution never stops the run. -/
theorem resolveEncoding_ok (w : World) (f : Flags) (piped : Bool) :
    ∃ native, (resolveEncoding w f piped).res = .ok native := by
  unfold resolveEncoding
  cases piped
  · cases hm : w.readMetaFromDump with
    | error err => exact ⟨true, by simp [Run.res_bind]⟩
    | ok m =>
      by_cases h1 : m.VMDataFormat = ""
      · exact ⟨true, by simp [Run.res_bind, h1]⟩
      · by_cases h2 : m.VMDataFormat = "native"
        · exact ⟨true, by simp [Run.res_bind, h1, h2]⟩
        · by_cases h3 : m.VMDataFormat = "json"
          · exact ⟨false, by simp [Run.res_bind, h1, h2, h3]⟩
          · exact ⟨false, by simp [Run.res_bind, h1, h2, h3]⟩
  · cases f.vmNativeData
    · exact ⟨false, by simp [Run.res_bind]⟩
    · exact ⟨true, by simp [Run.res_bind]⟩

/-- Once the prelude has returned, the rest of an import is the encoding
resolution, the encoding check and the transfer. -/
theorem importCmd_after_prelude (w : World) (f : Flags) (cfg : PMMConfig) (piped native : Bool)
    (hp : (importPrelude w f).res = .ok (cfg, piped))
    (hn : (resolveEncoding w f piped).res = .ok native) :
    (importCmd w f).res
        = ((encodingCheck native f.vmContentLimit) >>= fun _ =>
            importTransfer w f piped native).res
      ∧ (importCmd w f).log
        = (importPrelude w f).log ++ ((resolveEncoding w f piped).log
            ++ ((encodingCheck native f.vmContentLimit) >>= fun _ =>
                importTransfer w f piped native).log) := by
  unfold importCmd
  constructor
  · rw [Run.res_bind_ok _ hp]
    show ((resolveEncoding w f piped) >>= _).res = _
    rw [Run.res_bind_ok _ hn]
  · rw [Run.log_bind_ok _ hp]
    show _ ++ ((resolveEncoding w f piped) >>= _).log = _
    rw [Run.log_bind_ok _ hn]

@[simp] theorem Run.fatalSat_pure {α : Type} (a : α) (P : Fatal → Prop) :
    (pure a : Run α).FatalSat P := by
  intro e h
  simp at h

@[simp] theorem Run.fatalSat_emit (ev : Event) (P : Fatal → Prop) :
    (emit ev).FatalSat P := by
  intro e h
  simp at h

@[simp] theorem Run.fatalSat_fatal {α : Type} (e : Fatal) (P : Fatal → Prop) :
    (fatal e : Run α).FatalSat P ↔ P e := by
  constructor
  · intro h
    exact h e rfl
  · intro h e1 h1
    simp at h1
    exact h1 ▸ h

@[simp] theorem Run.fatalSat_bind {α β : Type} (x : Run α) (k : α → Run β)
    (P : Fatal → Prop) :
    (x >>= k).FatalSat P ↔ x.FatalSat P ∧ ∀ a, x.res = .ok a → (k a).FatalSat P := by
  unfold Run.FatalSat
  rw [Run.res_bind]
  cases hx : x.res with
  | error e0 => simp
  | ok a => simp

@[simp] theorem Run.fatalSat_ite {α : Type} (c : Prop) [Decidable c] (x y : Run α)
    (P : Fatal → Prop) :
    (if c then x else y).FatalSat P ↔ (c → x.FatalSat P) ∧ (¬ c → y.FatalSat P) := by
  by_cases h : c <;> simp [h]

@[simp] theorem Run.logSat_pure {α : Type} (a : α) (Q : Event → Prop) :
    (pure a : Run α).LogSat Q := by
  intro e h
  simp at h

@[simp] theorem Run.logSat_fatal {α : Type} (e : Fatal) (Q : Event → Prop) :
    (fatal e : Run α).LogSat Q := by
  intro e h
  simp at h

@[simp] theorem Run.logSat_emit (ev : Event) (Q : Event → Prop) :
    (emit ev).LogSat Q ↔ Q ev := by
  simp [Run.LogSat]

@[simp] theorem Run.logSat_bind {α β : Type} (x : Run α) (k : α → Run β)
    (Q : Event → Prop) :
    (x >>= k).LogSat Q ↔ x.LogSat Q ∧ ∀ a, x.res = .ok a → (k a).LogSat Q := by
  unfold Run.LogSat
  rw [Run.log_bind]
  cases hx : x.res with
  | error e0 => simp
  | ok a =>
    simp only [List.mem_append, Except.ok.injEq, forall_eq']
    constructor
    · intro h
      exact ⟨fun ev hev => h ev (Or.inl hev), fun ev hev => h ev (Or.inr hev)⟩
    · rintro ⟨h1, h2⟩ ev (hev | hev)
      · exact h1 ev hev
      · exact h2 ev hev

@[simp] theorem Run.logSat_ite {α : Type} (c : Prop) [Decidable c] (x y : Run α)
    (Q : Event → Prop) :
    (if c then x else y).LogSat Q ↔ (c → x.LogSat Q) ∧ (¬ c → y.LogSat Q) := by
  by_cases h : c <;> simp [h]

/-! ### The three shapes of helper call -/

@[simp] theorem callMayAbort_res (ev : Event) (name : String) (r : Option String) :
    (callMayAbort ev name r).res
      = match r with
        | some msg => .error (.helper name msg)
        | none => .ok () := by
  cases r <;> rfl

@[simp] theorem callMayAbort_log (ev : Event) (name : String) (r : Option String) :
    (callMayAbort ev name r).log = [ev] := by
  cases r <;> rfl

@[simp] theorem callOrAbort_res {α : Type} (ev : Event) (name : String) (r : Except String α) :
    (callOrAbort ev name r).res
      = match r with
        | .error msg => .error (.helper name msg)
        | .ok a => .ok a := by
  cases r <;> rfl

@[simp] theorem callOrAbort_log {α : Type} (ev : Event) (name : String) (r : Except String α) :
    (callOrAbort ev name r).log = [ev] := by
  cases r <;> rfl

@[simp] theorem callOrFatal_res {ε α : Type} (ev : Event) (r : Except ε α) (onErr : ε → Fatal) :
    (callOrFatal ev r onErr).res
      = match r with
        | .error err => .error (onErr err)
        | .ok a => .ok a := by
  cases r <;> rfl

@[simp] theorem callOrFatal_log {ε α : Type} (ev : Event) (r : Except ε α) (onErr : ε → Fatal) :
    (callOrFatal ev r onErr).log = [ev] := by
  cases r <;> rfl

@[simp] theorem callMayAbort_fatalSat (ev : Event) (name : String) (r : Option String)
    (P : Fatal → Prop) :
    (callMayAbort ev name r).FatalSat P ↔ ∀ msg, r = some msg → P (.helper name msg) := by
  cases r <;> simp [Run.FatalSat]

@[simp] theorem callOrAbort_fatalSat {α : Type} (ev : Event) (name : String)
    (r : Except String α) (P : Fatal → Prop) :
    (callOrAbort ev name r).FatalSat P ↔ ∀ msg, r = .error msg → P (.helper name msg) := by
  cases r <;> simp [Run.FatalSat]

@[simp] theorem callOrFatal_fatalSat {ε α : Type} (ev : Event) (r : Except ε α)
    (onErr : ε → Fatal) (P : Fatal → Prop) :
    (callOrFatal ev r onErr).FatalSat P ↔ ∀ err, r = .error err → P (onErr err) := by
  cases r <;> simp [Run.FatalSat]

@[simp] theorem callMayAbort_logSat (ev : Event) (name : String) (r : Option String)
    (Q : Event → Prop) : (callMayAbort ev name r).LogSat Q ↔ Q ev := by
  simp [Run.LogSat]

@[simp] theorem callOrAbort_logSat {α : Type} (ev : Event) (name : String)
    (r : Except String α) (Q : Event → Prop) : (callOrAbort ev name r).LogSat Q ↔ Q ev := by
  simp [Run.LogSat]

@[simp] theorem callOrFatal_logSat {ε α : Type} (ev : Event) (r : Except ε α)
    (onErr : ε → Fatal) (Q : Event → Prop) : (callOrFatal ev r onErr).LogSat Q ↔ Q ev := by
  simp [Run.LogSat]

/-- The transfer part of an import never stops at line 313. -/
theorem importTransfer_not_313 (w : World) (f : Flags) (piped native : Bool) :
    (importTransfer w f piped native).FatalSat (fun e => e.line ≠ some 313) := by
  unfold importTransfer
  simp [Fatal.line]

/-! ## The encoding of an import -/

/-- An import whose resolved encoding is JSON, or whose content limit is 0,
passes the encoding check and goes on with the transfer part. -/
theorem importCmd_check_passes (w : World) (f : Flags) (cfg : PMMConfig)
    (piped native : Bool)
    (hp : (importPrelude w f).res = .ok (cfg, piped))
    (hn : (resolveEncoding w f piped).res = .ok native)
    (hc : ¬ (native = true ∧ 0 < f.vmContentLimit)) :
    (encodingCheck native f.vmContentLimit).res = .ok ()
      ∧ (importCmd w f).res = (importTransfer w f piped native).res := by
  have hchk : (encodingCheck native f.vmContentLimit).res = .ok () := by
    unfold encodingCheck
    have : (native && decide (f.vmContentLimit > 0)) = false := by
      cases native <;> simp_all
    simp [this]
  refine ⟨hchk, ?_⟩
  rw [(importCmd_after_prelude w f cfg piped native hp hn).1, Run.res_bind_ok _ hchk]

/-- An import whose resolved encoding is native and whose content limit is
positive stops at line 313, having run the prelude and the resolution only. -/
theorem importCmd_check_stops (w : World) (f : Flags) (cfg : PMMConfig)
    (piped native : Bool)
    (hp : (importPrelude w f).res = .ok (cfg, piped))
    (hn : (resolveEncoding w f piped).res = .ok native)
    (hc : native = true ∧ 0 < f.vmContentLimit) :
    (importCmd w f).res = .error (.main 313 contentLimitMsg none)
      ∧ (importCmd w f).log = (importPrelude w f).log ++ (resolveEncoding w f piped).log := by
  obtain ⟨hres, hlog⟩ := importCmd_after_prelude w f cfg piped native hp hn
  have hchk : (encodingCheck native f.vmContentLimit).res
      = .error (.main 313 contentLimitMsg none) := by
    simp [encodingCheck, hc.1, hc.2]
  have hchkl : (encodingCheck native f.vmContentLimit).log = [] := by
    simp [encodingCheck, hc.1, hc.2]
  constructor
  · rw [hres, Run.res_bind_error _ hchk]
  · rw [hlog, Run.log_bind_error _ hchk, hchkl, List.append_nil]

/-- C1. For an import that reaches the encoding check (the prelude returned
and the encoding was resolved to `native`), the run stops with the fatal error
of line 313 exactly when the resolved encoding is native and
`--vm-content-limit` is positive; with limit 0, or with the JSON encoding, the
check passes and the run goes on with the transfer. -/
theorem import_content_limit_rejected_iff (w : World) (f : Flags) (cfg : PMMConfig)
    (piped native : Bool)
    (hp : (importPrelude w f).res = .ok (cfg, piped))
    (hn : (resolveEncoding w f piped).res = .ok native) :
    ((importCmd w f).res = .error (.main 313 contentLimitMsg none)
        ↔ native = true ∧ 0 < f.vmContentLimit)
      ∧ (native = false ∨ f.vmContentLimit = 0 →
          (encodingCheck native f.vmContentLimit).res = .ok ()
            ∧ (importCmd w f).res = (importTransfer w f piped native).res) := by
  by_cases hc : native = true ∧ 0 < f.vmContentLimit
  · refine ⟨⟨fun _ => hc, fun _ => (importCmd_check_stops w f cfg piped native hp hn hc).1⟩, ?_⟩
    rintro (h | h)
    · rw [hc.1] at h
      cases h
    · omega
  · obtain ⟨hchk, hres⟩ := importCmd_check_passes w f cfg piped native hp hn hc
    refine ⟨⟨fun h => ?_, fun h => absurd h hc⟩, fun _ => ⟨hchk, hres⟩⟩
    rw [hres] at h
    have := importTransfer_not_313 w f piped native _ h
    simp [Fatal.line] at this

/-- C1, at the fake dump re-declared as native and imported with
`--vm-content-limit 10024`. -/
theorem import_content_limit_rejected_iff_witness :
    (importCmd { okWorld with readMetaFromDump := .ok { fakeDumpMeta with VMDataFormat := "native" } }
        { plainFlags with vmContentLimit := 10024 }).res
      = .error (.main 313 contentLimitMsg none) :=
  ((import_content_limit_rejected_iff
      { okWorld with readMetaFromDump := .ok { fakeDumpMeta with VMDataFormat := "native" } }
      { plainFlags with vmContentLimit := 10024 }
      { VictoriaMetricsURL := "http://pmm/prometheus", ClickHouseURL := "tcp://pmm:9000" }
      false true rfl rfl).1).2 ⟨rfl, by decide⟩

/-- The import prelude hands no encoding to anything and reads no metadata. -/
theorem importPrelude_logSat_encoding (w : World) (f : Flags) (native : Bool) (limit : Nat) :
    (importPrelude w f).LogSat (fun ev => ev.hasEncoding native limit ∧ ev.isMetaRead = false) := by
  unfold importPrelude
  simp [Event.hasEncoding, Event.isMetaRead]

/-- The encoding resolution hands no encoding to anything. -/
theorem resolveEncoding_logSat_encoding (w : World) (f : Flags) (piped native : Bool)
    (limit : Nat) :
    (resolveEncoding w f piped).LogSat (fun ev => ev.hasEncoding native limit) := by
  unfold resolveEncoding
  cases piped
  · cases hm : w.readMetaFromDump with
    | error err => simp [Event.hasEncoding]
    | ok m => simp [Event.hasEncoding]
  · simp [Event.hasEncoding]

/-- The transfer part hands the encoding it was given to the VictoriaMetrics
source and to the composed metadata, and reads no metadata. -/
theorem importTransfer_logSat_encoding (w : World) (f : Flags) (piped native : Bool) :
    (importTransfer w f piped native).LogSat
      (fun ev => ev.hasEncoding native f.vmContentLimit ∧ ev.isMetaRead = false) := by
  unfold importTransfer
  simp [Event.hasEncoding, Event.isMetaRead]

/-- The transfer part starts by preparing the VictoriaMetrics source with the
encoding it was given. -/
theorem importTransfer_log_head (w : World) (f : Flags) (piped native : Bool) :
    Event.prepareVictoriaMetricsSource [] native f.vmContentLimit
      ∈ (importTransfer w f piped native).log := by
  unfold importTransfer
  simp only [bind_assoc, Run.log_bind, callOrAbort_log]
  split <;> simp

/-- In an import that reached the encoding check, every step that takes an
encoding takes the resolved one, and when the check passes the VictoriaMetrics
source is prepared with it. -/
theorem importCmd_encoding_events (w : World) (f : Flags) (cfg : PMMConfig)
    (piped native : Bool)
    (hp : (importPrelude w f).res = .ok (cfg, piped))
    (hn : (resolveEncoding w f piped).res = .ok native) :
    (∀ ev ∈ (importCmd w f).log, ev.hasEncoding native f.vmContentLimit)
      ∧ (¬ (native = true ∧ 0 < f.vmContentLimit) →
          Event.prepareVictoriaMetricsSource [] native f.vmContentLimit
            ∈ (importCmd w f).log) := by
  obtain ⟨_, hlog⟩ := importCmd_after_prelude w f cfg piped native hp hn
  have htail : ((encodingCheck native f.vmContentLimit) >>= fun _ =>
      importTransfer w f piped native).LogSat
        (fun ev => ev.hasEncoding native f.vmContentLimit) := by
    rw [Run.logSat_bind]
    constructor
    · unfold encodingCheck
      simp
    · intro _ _ ev hev
      exact (importTransfer_logSat_encoding w f piped native ev hev).1
  constructor
  · intro ev hev
    rw [hlog] at hev
    rcases List.mem_append.mp hev with h | h
    · exact (importPrelude_logSat_encoding w f native f.vmContentLimit ev h).1
    · rcases List.mem_append.mp h with h | h
      · exact resolveEncoding_logSat_encoding w f piped native f.vmContentLimit ev h
      · exact htail ev h
  · intro hc
    have hchk := (importCmd_check_passes w f cfg piped native hp hn hc).1
    rw [hlog, Run.log_bind_ok _ hchk]
    exact List.mem_append_right _ (List.mem_append_right _
      (List.mem_append_right _ (importTransfer_log_head w f piped native)))

/-- The encoding resolved on an import that is not piped is the one the
metadata stands for. -/
theorem resolveEncoding_of_meta (w : World) (f : Flags) :
    (resolveEncoding w f false).res = .ok (encodingOfMeta w.readMetaFromDump) := by
  unfold resolveEncoding encodingOfMeta
  cases hm : w.readMetaFromDump with
  | error err => simp [Run.res_bind]
  | ok m =>
    by_cases h1 : m.VMDataFormat = ""
    · simp [Run.res_bind, h1]
    · by_cases h2 : m.VMDataFormat = "native"
      · simp [Run.res_bind, h1, h2]
      · by_cases h3 : m.VMDataFormat = "json"
        · simp [Run.res_bind, h1, h2, h3]
        · simp [Run.res_bind, h1, h2, h3]

/-- C2. On an import that is not piped the VictoriaMetrics encoding is decided
by the metadata of the dump alone: native when the metadata cannot be read or
when `vm_data_format` is `""` or `"native"`, JSON for `"json"` and every other
string; the value of `--vm-native-data` changes neither the prelude nor the
resolved encoding, and every step of the run that takes an encoding
(`prepareVictoriaMetricsSource`, `composeMeta`) is handed the encoding of the
metadata.  When the metadata declares `"json"` the encoding check passes for
every `--vm-content-limit` and the VictoriaMetrics source is prepared with
JSON and that limit. -/
theorem import_encoding_from_meta (w : World) (f : Flags) (cfg : PMMConfig)
    (hp : (importPrelude w f).res = .ok (cfg, false)) :
    (resolveEncoding w f false).res
        = .ok (match w.readMetaFromDump with
            | .error _ => true
            | .ok m => decide (m.VMDataFormat = "" ∨ m.VMDataFormat = "native"))
      ∧ (∀ b : Bool,
          importPrelude w { f with vmNativeData := b } = importPrelude w f
            ∧ (resolveEncoding w { f with vmNativeData := b } false).res
                = (resolveEncoding w f false).res)
      ∧ (∀ selectors b limit,
          Event.prepareVictoriaMetricsSource selectors b limit ∈ (importCmd w f).log →
          b = encodingOfMeta w.readMetaFromDump ∧ limit = f.vmContentLimit)
      ∧ (∀ b, Event.composeMeta b ∈ (importCmd w f).log →
          b = encodingOfMeta w.readMetaFromDump)
      ∧ (¬ (encodingOfMeta w.readMetaFromDump = true ∧ 0 < f.vmContentLimit) →
          Event.prepareVictoriaMetricsSource [] (encodingOfMeta w.readMetaFromDump)
            f.vmContentLimit ∈ (importCmd w f).log)
      ∧ (∀ m, w.readMetaFromDump = .ok m → m.VMDataFormat = "json" →
          (resolveEncoding w f false).res = .ok false
            ∧ (importCmd w f).res = (importTransfer w f false false).res
            ∧ Event.prepareVictoriaMetricsSource [] false f.vmContentLimit
                ∈ (importCmd w f).log) := by
  have hn := resolveEncoding_of_meta w f
  obtain ⟨hall, hhead⟩ := importCmd_encoding_events w f cfg false _ hp hn
  refine ⟨hn, fun b => ⟨rfl, rfl⟩, ?_, ?_, hhead, fun m hm hj => ?_⟩
  · intro selectors b limit hmem
    have := hall _ hmem
    simp only [Event.hasEncoding] at this
    exact ⟨this.2.1, this.2.2⟩
  · intro b hmem
    have := hall _ hmem
    simpa only [Event.hasEncoding] using this
  · have henc : encodingOfMeta w.readMetaFromDump = false := by
      rw [hm]
      simp [encodingOfMeta, hj]
    rw [henc] at hn hhead
    exact ⟨hn, (importCmd_check_passes w f cfg false false hp hn (by simp)).2,
      hhead (by simp)⟩

/-- C2, at the fake dump of `TestContentLimit` imported with
`--vm-native-data --vm-content-limit 10024`: the VictoriaMetrics source is
prepared with JSON and the limit, and the import completes. -/
theorem import_encoding_from_meta_witness :
    Event.prepareVictoriaMetricsSource [] false 10024
        ∈ (importCmd okWorld
            { plainFlags with vmNativeData := true, vmContentLimit := 10024 }).log
      ∧ (importCmd okWorld { plainFlags with vmNativeData := true, vmContentLimit := 10024 }).res
          = .ok () :=
  ⟨((import_encoding_from_meta okWorld
        { plainFlags with vmNativeData := true, vmContentLimit := 10024 }
        { VictoriaMetricsURL := "http://pmm/prometheus", ClickHouseURL := "tcp://pmm:9000" }
        rfl).2.2.2.2.2 fakeDumpMeta rfl rfl).2.2,
   rfl⟩

/-- C3, refuted as stated: a piped import without `--vm-native-data` warns and
goes on with the JSON encoding (`native = false` reaches
`prepareVictoriaMetricsSource` and `composeMeta`), not with native. -/
theorem piped_import_default_is_json :
    plainFlags.vmNativeData = false
      ∧ (importPrelude pipedWorld plainFlags).res
          = .ok ({ VictoriaMetricsURL := "http://pmm/prometheus",
                   ClickHouseURL := "tcp://pmm:9000" }, true)
      ∧ (resolveEncoding pipedWorld plainFlags true).res = .ok false
      ∧ (resolveEncoding pipedWorld plainFlags true).res ≠ .ok true
      ∧ (importCmd pipedWorld plainFlags).log
          = [.newClientHTTP, .parseURL, .auth, .getPMMConfig, .checkVersionSupport, .checkPiped,
             .warn "Cannot read meta file during import in a pipeline. Using VictoriaMetrics' JSON export format",
             .prepareVictoriaMetricsSource [] false 0, .prepareClickHouseSource "",
             .getFile "dump.tar.gz" true, .transfererNew [Source.victoriaMetrics] 0,
             .composeMeta false, .transferImport fakeDumpMeta] := by
  refine ⟨rfl, rfl, rfl, ?_, rfl⟩
  intro h
  have h2 : (resolveEncoding pipedWorld plainFlags true).res = .ok false := rfl
  rw [h2] at h
  cases h

/-- The encoding resolution of a piped import logs its one warning only. -/
theorem resolveEncoding_piped (w : World) (f : Flags) :
    (resolveEncoding w f true).res = .ok f.vmNativeData
      ∧ (resolveEncoding w f true).log
          = [.warn (if f.vmNativeData = true then
              "Cannot read meta file during import in a pipeline. Using VictoriaMetrics' native export format because `--vm-native-data` was provided"
            else
              "Cannot read meta file during import in a pipeline. Using VictoriaMetrics' JSON export format")] := by
  unfold resolveEncoding
  cases f.vmNativeData <;> simp [Run.res_bind, Run.log_bind]

/-- C3, amended. On a piped import the dump's metadata is not read: exactly
one warning is logged and the encoding is the value of `--vm-native-data`, that
is JSON when the flag was not given and native when it was; every step of the
run that takes an encoding is handed that value, and when the flag was not
given the VictoriaMetrics source is prepared with JSON. -/
theorem piped_import_encoding (w : World) (f : Flags) (cfg : PMMConfig)
    (hp : (importPrelude w f).res = .ok (cfg, true)) :
    (resolveEncoding w f true).res = .ok f.vmNativeData
      ∧ (resolveEncoding w f true).log
          = [.warn (if f.vmNativeData = true then
              "Cannot read meta file during import in a pipeline. Using VictoriaMetrics' native export format because `--vm-native-data` was provided"
            else
              "Cannot read meta file during import in a pipeline. Using VictoriaMetrics' JSON export format")]
      ∧ (∀ path b, Event.readMetaFromDump path b ∉ (importCmd w f).log)
      ∧ (∀ selectors b limit,
          Event.prepareVictoriaMetricsSource selectors b limit ∈ (importCmd w f).log →
          b = f.vmNativeData ∧ limit = f.vmContentLimit)
      ∧ (∀ b, Event.composeMeta b ∈ (importCmd w f).log → b = f.vmNativeData)
      ∧ (¬ (f.vmNativeData = true ∧ 0 < f.vmContentLimit) →
          Event.prepareVictoriaMetricsSource [] f.vmNativeData f.vmContentLimit
            ∈ (importCmd w f).log)
      ∧ (f.vmNativeData = false →
          Event.prepareVictoriaMetricsSource [] false f.vmContentLimit
            ∈ (importCmd w f).log)
      ∧ (importCmd w f).res
          = ((encodingCheck f.vmNativeData f.vmContentLimit) >>= fun _ =>
              importTransfer w f true f.vmNativeData).res := by
  obtain ⟨hn, hwarn⟩ := resolveEncoding_piped w f
  obtain ⟨hres, hlog⟩ := importCmd_after_prelude w f cfg true _ hp hn
  obtain ⟨hall, hhead⟩ := importCmd_encoding_events w f cfg true _ hp hn
  refine ⟨hn, hwarn, ?_, ?_, ?_, hhead, ?_, hres⟩
  · intro path b hmem
    rw [hlog, hwarn] at hmem
    have htail : ((encodingCheck f.vmNativeData f.vmContentLimit) >>= fun _ =>
        importTransfer w f true f.vmNativeData).LogSat (fun ev => ev.isMetaRead = false) := by
      rw [Run.logSat_bind]
      constructor
      · unfold encodingCheck
        simp
      · intro _ _ ev hev
        exact (importTransfer_logSat_encoding w f true f.vmNativeData ev hev).2
    rcases List.mem_append.mp hmem with h | h
    · have := (importPrelude_logSat_encoding w f true 0 _ h).2
      simp [Event.isMetaRead] at this
    · rcases List.mem_append.mp h with h | h
      · simp at h
      · have := htail _ h
        simp [Event.isMetaRead] at this
  · intro selectors b limit hmem
    have := hall _ hmem
    simp only [Event.hasEncoding] at this
    exact ⟨this.2.1, this.2.2⟩
  · intro b hmem
    have := hall _ hmem
    simpa only [Event.hasEncoding] using this
  · intro hf
    have := hhead (by simp [hf])
    rwa [hf] at this

/-- C3 amended, at a piped import without `--vm-native-data`: the
VictoriaMetrics source is prepared with JSON. -/
theorem piped_import_encoding_witness :
    Event.prepareVictoriaMetricsSource [] false 0 ∈ (importCmd pipedWorld plainFlags).log :=
  (piped_import_encoding pipedWorld plainFlags
    { VictoriaMetricsURL := "http://pmm/prometheus", ClickHouseURL := "tcp://pmm:9000" }
    rfl).2.2.2.2.2.2.1 rfl

/-! ## The time window of an export -/

@[simp] theorem orFatal_res {ε α : Type} (r : Except ε α) (onErr : ε → Fatal) :
    (orFatal r onErr).res
      = match r with
        | .error err => .error (onErr err)
        | .ok a => .ok a := by
  cases r <;> rfl

@[simp] theorem orFatal_log {ε α : Type} (r : Except ε α) (onErr : ε → Fatal) :
    (orFatal r onErr).log = [] := by
  cases r <;> rfl

@[simp] theorem orFatal_fatalSat {ε α : Type} (r : Except ε α) (onErr : ε → Fatal)
    (P : Fatal → Prop) :
    (orFatal r onErr).FatalSat P ↔ ∀ err, r = .error err → P (onErr err) := by
  cases r <;> simp [Run.FatalSat]

@[simp] theorem orFatal_logSat {ε α : Type} (r : Except ε α) (onErr : ε → Fatal)
    (Q : Event → Prop) : (orFatal r onErr).LogSat Q := by
  simp [Run.LogSat]

/-- Resolving the time window produces no event. -/
theorem resolveTimes_log (w : World) (f : Flags) : (resolveTimes w f).log = [] := by
  have h : (resolveTimes w f).LogSat (fun _ => False) := by
    unfold resolveTimes
    simp
  exact List.eq_nil_iff_forall_not_mem.mpr (fun ev hev => h ev hev)

/-- Once the setup has returned and the times are resolved, the rest of an
export is the range check and what follows it. -/
theorem exportCmd_after_times (w : World) (f : Flags) (sources : List Source)
    (startTime endTime : Time)
    (hs : (exportSetup w f).res = .ok sources)
    (ht : (resolveTimes w f).res = .ok (startTime, endTime)) :
    (exportCmd w f).res
        = ((rangeCheck startTime endTime) >>= fun _ =>
            exportAfterCheck w f sources startTime endTime).res
      ∧ (exportCmd w f).log
        = (exportSetup w f).log
            ++ ((rangeCheck startTime endTime) >>= fun _ =>
                exportAfterCheck w f sources startTime endTime).log := by
  unfold exportCmd
  constructor
  · rw [Run.res_bind_ok _ hs]
    show ((resolveTimes w f) >>= _).res = _
    rw [Run.res_bind_ok _ ht]
  · rw [Run.log_bind_ok _ hs]
    show _ ++ ((resolveTimes w f) >>= _).log = _
    rw [Run.log_bind_ok _ ht, resolveTimes_log, List.nil_append]

/-- What follows the range check never stops at line 209. -/
theorem exportAfterCheck_not_209 (w : World) (f : Flags) (sources : List Source)
    (startTime endTime : Time) :
    (exportAfterCheck w f sources startTime endTime).FatalSat (fun e => e.line ≠ some 209) := by
  unfold exportAfterCheck exportPlan exportTransfer exportChunks loadThresholds
  simp [Fatal.line]

/-- What follows the range check starts by creating the dump file. -/
theorem exportAfterCheck_log_head (w : World) (f : Flags) (sources : List Source)
    (startTime endTime : Time) :
    Event.createFile f.dumpPath f.stdout
      ∈ (exportAfterCheck w f sources startTime endTime).log := by
  unfold exportAfterCheck exportPlan
  simp only [bind_assoc, Run.log_bind, callOrFatal_log]
  split <;> split <;> simp

/-- An export whose start is not after its end passes the range check and
goes on with the creation of the dump file. -/
theorem exportCmd_range_passes (w : World) (f : Flags) (sources : List Source)
    (startTime endTime : Time)
    (hs : (exportSetup w f).res = .ok sources)
    (ht : (resolveTimes w f).res = .ok (startTime, endTime))
    (hc : startTime ≤ endTime) :
    (rangeCheck startTime endTime).res = .ok ()
      ∧ (exportCmd w f).res = (exportAfterCheck w f sources startTime endTime).res
      ∧ (exportCmd w f).log
          = (exportSetup w f).log ++ (exportAfterCheck w f sources startTime endTime).log := by
  obtain ⟨hres, hlog⟩ := exportCmd_after_times w f sources startTime endTime hs ht
  have hchk : (rangeCheck startTime endTime).res = .ok () := by
    simp [rangeCheck, Time.After, not_lt.mpr hc]
  have hchkl : (rangeCheck startTime endTime).log = [] := by
    simp [rangeCheck, Time.After, not_lt.mpr hc]
  refine ⟨hchk, ?_, ?_⟩
  · rw [hres, Run.res_bind_ok _ hchk]
  · rw [hlog, Run.log_bind_ok _ hchk, hchkl, List.nil_append]

/-- An export whose start is after its end stops at line 209, having run the
setup only. -/
theorem exportCmd_range_stops (w : World) (f : Flags) (sources : List Source)
    (startTime endTime : Time)
    (hs : (exportSetup w f).res = .ok sources)
    (ht : (resolveTimes w f).res = .ok (startTime, endTime))
    (hc : endTime < startTime) :
    (exportCmd w f).res = .error (.main 209 "Invalid time range: start > end" none)
      ∧ (exportCmd w f).log = (exportSetup w f).log := by
  obtain ⟨hres, hlog⟩ := exportCmd_after_times w f sources startTime endTime hs ht
  have hchk : (rangeCheck startTime endTime).res
      = .error (.main 209 "Invalid time range: start > end" none) := by
    simp [rangeCheck, Time.After, hc]
  have hchkl : (rangeCheck startTime endTime).log = [] := by
    simp [rangeCheck, Time.After, hc]
  constructor
  · rw [hres, Run.res_bind_error _ hchk]
  · rw [hlog, Run.log_bind_error _ hchk, hchkl, List.append_nil]

/-- C4. Once the two export times are known, the export stops with the fatal
error "Invalid time range: start > end" exactly when the start instant is
strictly after the end instant; otherwise, in particular for the empty window
`start = end`, the check passes and the run goes on to create the dump file and
to the rest of the export. -/
theorem export_range_rejected_iff (w : World) (f : Flags) (sources : List Source)
    (startTime endTime : Time)
    (hs : (exportSetup w f).res = .ok sources)
    (ht : (resolveTimes w f).res = .ok (startTime, endTime)) :
    ((exportCmd w f).res = .error (.main 209 "Invalid time range: start > end" none)
        ↔ endTime < startTime)
      ∧ (startTime ≤ endTime →
          (rangeCheck startTime endTime).res = .ok ()
            ∧ (exportCmd w f).res = (exportAfterCheck w f sources startTime endTime).res
            ∧ Event.createFile f.dumpPath f.stdout ∈ (exportCmd w f).log) := by
  by_cases hc : endTime < startTime
  · exact ⟨⟨fun _ => hc,
      fun _ => (exportCmd_range_stops w f sources startTime endTime hs ht hc).1⟩,
      fun h => absurd hc (not_lt.mpr h)⟩
  · obtain ⟨hchk, hres, hlog⟩ :=
      exportCmd_range_passes w f sources startTime endTime hs ht (not_lt.mp hc)
    refine ⟨⟨fun h => ?_, fun h => absurd h hc⟩, fun _ => ⟨hchk, hres, ?_⟩⟩
    · rw [hres] at h
      have := exportAfterCheck_not_209 w f sources startTime endTime _ h
      simp [Fatal.line] at this
    · rw [hlog]
      exact List.mem_append_right _ (exportAfterCheck_log_head w f sources startTime endTime)

/-- C4, at the empty window `--start-ts 2024-01-01T10:00:00Z --end-ts
2024-01-01T10:00:00Z`: the export is not rejected and completes. -/
theorem export_range_rejected_iff_witness :
    (exportCmd okWorld
        { plainFlags with start := "2024-01-01T10:00:00Z", end_ := "2024-01-01T10:00:00Z" }).res
      = .ok () :=
  ((export_range_rejected_iff okWorld
      { plainFlags with start := "2024-01-01T10:00:00Z", end_ := "2024-01-01T10:00:00Z" }
      [Source.victoriaMetrics] 1704103200000000000 1704103200000000000 rfl rfl).2
    (le_refl _)).2.1.trans rfl

/-! ## Where a run stands when a configuration error stops it -/

/-- The filter warning never stops the run. -/
theorem filterWarning_res (f : Flags) : (filterWarning f).res = .ok () := by
  unfold filterWarning
  split
  · split
    · rfl
    · split <;> rfl
  · rfl

/-- The events of a setup that returned. -/
theorem exportSetup_log_of_ok (w : World) (f : Flags) (sources : List Source)
    (hs : (exportSetup w f).res = .ok sources) :
    ∃ selectors, w.getDashboardSelectors = .ok selectors
      ∧ (exportSetup w f).log
        = [.newClientHTTP, .parseURL, .auth] ++ (filterWarning f).log
          ++ [.getPMMConfig, .checkVersionSupport,
              .getDashboardSelectors f.dashboards f.instances,
              .prepareVictoriaMetricsSource (coreSelectors f selectors) f.vmNativeData
                f.vmContentLimit,
              .prepareClickHouseSource (qanWhere f)] := by
  unfold exportSetup at hs ⊢
  have hw := filterWarning_res f
  rcases h1 : w.parseURL with _ | e1
  · rcases h2 : w.auth with _ | e2
    · by_cases h3 : (f.dumpQAN || f.dumpCore) = true
      · rcases h4 : w.getPMMConfig with e4 | cfg
        · simp [Run.res_bind, h1, h2, h3, h4, hw] at hs
        · rcases h5 : w.checkVersionSupport with _ | e5
          · rcases h6 : w.getDashboardSelectors with e6 | sel
            · simp [Run.res_bind, h1, h2, h3, h4, h5, h6, hw] at hs
            · rcases h7 : w.prepareVictoriaMetricsSource with e7 | okVM
              · simp [Run.res_bind, h1, h2, h3, h4, h5, h6, h7, hw] at hs
              · rcases h8 : w.prepareClickHouseSource with e8 | okCH
                · simp [Run.res_bind, h1, h2, h3, h4, h5, h6, h7, h8, hw] at hs
                · refine ⟨sel, rfl, ?_⟩
                  simp [Run.res_bind, Run.log_bind, h1, h2, h3, h4, h5, h7, h8, hw]
          · simp [Run.res_bind, h1, h2, h3, h4, h5, hw] at hs
      · simp [Run.res_bind, h1, h2, h3, hw] at hs
    · simp [Run.res_bind, h1, h2] at hs
  · simp [Run.res_bind, h1] at hs

/-- The events of an import prelude that returned. -/
theorem importPrelude_log_of_ok (w : World) (f : Flags) (cfg : PMMConfig) (piped : Bool)
    (hp : (importPrelude w f).res = .ok (cfg, piped)) :
    w.checkPiped = .ok piped
      ∧ (importPrelude w f).log
        = [.newClientHTTP, .parseURL, .auth, .getPMMConfig, .checkVersionSupport,
           .checkPiped] := by
  unfold importPrelude at hp ⊢
  rcases h1 : w.parseURL with _ | e1
  · rcases h2 : w.auth with _ | e2
    · by_cases h3 : (f.dumpQAN || f.dumpCore) = true
      · rcases h4 : w.getPMMConfig with e4 | cfg
        · simp [Run.res_bind, h1, h2, h3, h4] at hp
        · rcases h5 : w.checkVersionSupport with _ | e5
          · rcases h6 : w.checkPiped with e6 | p
            · simp [Run.res_bind, h1, h2, h3, h4, h5, h6] at hp
            · simp [Run.res_bind, h1, h2, h3, h4, h5, h6] at hp
              refine ⟨by rw [hp.2], ?_⟩
              simp [Run.res_bind, Run.log_bind, h1, h2, h3, h4, h5]
          · simp [Run.res_bind, h1, h2, h3, h4, h5] at hp
      · simp [Run.res_bind, h1, h2, h3] at hp
    · simp [Run.res_bind, h1, h2] at hp
  · simp [Run.res_bind, h1] at hp

/-- The filter warning has no fatal exit. -/
@[simp] theorem filterWarning_fatalSat (f : Flags) (P : Fatal → Prop) :
    (filterWarning f).FatalSat P := by
  intro e h
  rw [filterWarning_res] at h
  cases h

/-- The setup of an export never stops at line 209. -/
theorem exportSetup_not_209 (w : World) (f : Flags) :
    (exportSetup w f).FatalSat (fun e => e.line ≠ some 209) := by
  unfold exportSetup
  simp [Fatal.line]

/-- Resolving the times never stops at line 209. -/
theorem resolveTimes_not_209 (w : World) (f : Flags) :
    (resolveTimes w f).FatalSat (fun e => e.line ≠ some 209) := by
  unfold resolveTimes
  simp [Fatal.line]

/-- The import prelude never stops at line 313. -/
theorem importPrelude_not_313 (w : World) (f : Flags) :
    (importPrelude w f).FatalSat (fun e => e.line ≠ some 313) := by
  unfold importPrelude
  simp [Fatal.line]

/-- The encoding resolution logs warnings and at most the metadata read. -/
theorem resolveEncoding_logSat (w : World) (f : Flags) (piped : Bool) :
    (resolveEncoding w f piped).LogSat (fun ev => ev.isTransferStep = false) := by
  unfold resolveEncoding
  cases piped
  · cases hm : w.readMetaFromDump with
    | error err => simp [Event.isTransferStep]
    | ok m => simp [Event.isTransferStep]
  · simp [Event.isTransferStep]

/-- The metadata read is the first event of a resolution that is not piped. -/
theorem resolveEncoding_reads_meta (w : World) (f : Flags) :
    Event.readMetaFromDump f.dumpPath false ∈ (resolveEncoding w f false).log := by
  unfold resolveEncoding
  simp [Run.log_bind]

/-- The filter warning logs warnings only. -/
theorem filterWarning_logSat (f : Flags) :
    (filterWarning f).LogSat (fun ev => ev.isTransferStep = false) := by
  unfold filterWarning
  simp [Event.isTransferStep]

/-- C5, refuted as stated: the export with `start > end` stops at line 209
only after authentication, the PMM config and version lookups, the dashboard
resolution and the preparation of both sources; the import with a native dump
and `--vm-content-limit 10024` stops at line 313 only after the same lookups
and after the metadata of the dump file has been read. -/
theorem config_error_after_requests :
    (exportCmd okWorld lateStartFlags).res
        = .error (.main 209 "Invalid time range: start > end" none)
      ∧ (exportCmd okWorld lateStartFlags).log
          = [.newClientHTTP, .parseURL, .auth, .getPMMConfig, .checkVersionSupport,
             .getDashboardSelectors [] [], .prepareVictoriaMetricsSource [] false 0,
             .prepareClickHouseSource ""]
      ∧ (exportCmd okWorld lateStartFlags).log.any Event.isNetworkRequest = true
      ∧ (importCmd nativeDumpWorld limitFlags).res
          = .error (.main 313 contentLimitMsg none)
      ∧ (importCmd nativeDumpWorld limitFlags).log
          = [.newClientHTTP, .parseURL, .auth, .getPMMConfig, .checkVersionSupport,
             .checkPiped, .readMetaFromDump "dump.tar.gz" false]
      ∧ (importCmd nativeDumpWorld limitFlags).log.any Event.isNetworkRequest = true
      ∧ (importCmd nativeDumpWorld limitFlags).log.any Event.isFileAccess = true := by
  refine ⟨rfl, rfl, ?_, rfl, rfl, ?_, ?_⟩
  · have h : (exportCmd okWorld lateStartFlags).log
        = [.newClientHTTP, .parseURL, .auth, .getPMMConfig, .checkVersionSupport,
           .getDashboardSelectors [] [], .prepareVictoriaMetricsSource [] false 0,
           .prepareClickHouseSource ""] := rfl
    rw [h]
    rfl
  · have h : (importCmd nativeDumpWorld limitFlags).log
        = [.newClientHTTP, .parseURL, .auth, .getPMMConfig, .checkVersionSupport,
           .checkPiped, .readMetaFromDump "dump.tar.gz" false] := rfl
    rw [h]
    rfl
  · have h : (importCmd nativeDumpWorld limitFlags).log
        = [.newClientHTTP, .parseURL, .auth, .getPMMConfig, .checkVersionSupport,
           .checkPiped, .readMetaFromDump "dump.tar.gz" false] := rfl
    rw [h]
    rfl

/-- C5, amended. An export that stops with "Invalid time range: start > end"
has by then run exactly the setup (client, authentication, PMM config, version
check, dashboard resolution, both sources), and an import that stops with the
content-limit error has run exactly the prelude and the encoding resolution,
which reads the metadata of the dump unless the input is piped; in both cases
no step from the creation or opening of the dump file on has run. -/
theorem config_error_before_dump_file (w : World) (f : Flags) :
    ((exportCmd w f).res = .error (.main 209 "Invalid time range: start > end" none) →
        (∃ selectors, w.getDashboardSelectors = .ok selectors
          ∧ (exportCmd w f).log
            = [.newClientHTTP, .parseURL, .auth] ++ (filterWarning f).log
              ++ [.getPMMConfig, .checkVersionSupport,
                  .getDashboardSelectors f.dashboards f.instances,
                  .prepareVictoriaMetricsSource (coreSelectors f selectors) f.vmNativeData
                    f.vmContentLimit,
                  .prepareClickHouseSource (qanWhere f)])
          ∧ ∀ ev ∈ (exportCmd w f).log, ev.isTransferStep = false)
      ∧ ((importCmd w f).res = .error (.main 313 contentLimitMsg none) →
          ∃ piped, w.checkPiped = .ok piped
            ∧ (importCmd w f).log
              = [.newClientHTTP, .parseURL, .auth, .getPMMConfig, .checkVersionSupport,
                 .checkPiped] ++ (resolveEncoding w f piped).log
            ∧ (piped = false →
                Event.readMetaFromDump f.dumpPath false ∈ (importCmd w f).log)
            ∧ ∀ ev ∈ (importCmd w f).log, ev.isTransferStep = false) := by
  constructor
  · intro h
    -- the setup returned
    rcases hs : (exportSetup w f).res with e0 | sources
    · have h' : (exportCmd w f).res = .error e0 := by
        unfold exportCmd
        exact Run.res_bind_error _ hs
      rw [h'] at h
      have := exportSetup_not_209 w f e0 hs
      cases h
      simp [Fatal.line] at this
    -- the times were resolved
    rcases ht : (resolveTimes w f).res with e1 | ⟨startTime, endTime⟩
    · have h' : (exportCmd w f).res = .error e1 := by
        unfold exportCmd
        rw [Run.res_bind_ok _ hs]
        exact Run.res_bind_error _ ht
      rw [h'] at h
      have := resolveTimes_not_209 w f e1 ht
      cases h
      simp [Fatal.line] at this
    have hlt : endTime < startTime := by
      by_contra hc
      obtain ⟨_, hres, _⟩ :=
        exportCmd_range_passes w f sources startTime endTime hs ht (not_lt.mp hc)
      rw [hres] at h
      have := exportAfterCheck_not_209 w f sources startTime endTime _ h
      simp [Fatal.line] at this
    have hlog := (exportCmd_range_stops w f sources startTime endTime hs ht hlt).2
    obtain ⟨sel, hsel, hsl⟩ := exportSetup_log_of_ok w f sources hs
    refine ⟨⟨sel, hsel, hlog.trans hsl⟩, ?_⟩
    rw [hlog, hsl]
    intro ev hev
    simp only [List.mem_append, List.mem_cons, List.mem_singleton, List.not_mem_nil,
      or_false] at hev
    rcases hev with (h1 | h1) | h1
    · rcases h1 with h1 | h1 | h1 <;> subst h1 <;> rfl
    · exact filterWarning_logSat f ev h1
    · rcases h1 with h1 | h1 | h1 | h1 | h1 <;> subst h1 <;> rfl
  · intro h
    rcases hp : (importPrelude w f).res with e0 | ⟨cfg, piped⟩
    · have h' : (importCmd w f).res = .error e0 := by
        unfold importCmd
        exact Run.res_bind_error _ hp
      rw [h'] at h
      have := importPrelude_not_313 w f e0 hp
      cases h
      simp [Fatal.line] at this
    obtain ⟨native, hn⟩ := resolveEncoding_ok w f piped
    have hc : native = true ∧ 0 < f.vmContentLimit := by
      by_contra hc
      obtain ⟨_, hres⟩ := importCmd_check_passes w f cfg piped native hp hn hc
      rw [hres] at h
      have := importTransfer_not_313 w f piped native _ h
      simp [Fatal.line] at this
    have hlog := (importCmd_check_stops w f cfg piped native hp hn hc).2
    obtain ⟨hpiped, hpl⟩ := importPrelude_log_of_ok w f cfg piped hp
    rw [hpl] at hlog
    refine ⟨piped, hpiped, hlog, ?_, ?_⟩
    · intro hf
      subst hf
      rw [hlog]
      exact List.mem_append_right _ (resolveEncoding_reads_meta w f)
    · rw [hlog]
      intro ev hev
      simp only [List.mem_append, List.mem_cons, List.mem_singleton, List.not_mem_nil,
        or_false] at hev
      rcases hev with h1 | h1
      · rcases h1 with h1 | h1 | h1 | h1 | h1 | h1 <;> subst h1 <;> rfl
      · exact resolveEncoding_logSat w f piped ev h1

/-- C5 amended, at the export with `start > end` and at the import of a native
dump with `--vm-content-limit 10024`. -/
theorem config_error_before_dump_file_witness :
    (∀ ev ∈ (exportCmd okWorld lateStartFlags).log, ev.isTransferStep = false)
      ∧ (∀ ev ∈ (importCmd nativeDumpWorld limitFlags).log, ev.isTransferStep = false) :=
  ⟨((config_error_before_dump_file okWorld lateStartFlags).1 rfl).2,
   by
    obtain ⟨_, _, _, _, h⟩ := (config_error_before_dump_file nativeDumpWorld limitFlags).2 rfl
    exact h⟩

/-! ## Defaults of the time window -/

/-- C6, refuted as stated: with `--end-ts 2024-01-01T06:00:00Z` and no
`--start-ts`, at a clock reading 12:00:00Z, the start time is 02:00:00Z, four
hours before the end, and not 08:00:00Z, four hours before now. -/
theorem default_start_is_relative_to_end :
    endOnlyFlags.start = ""
      ∧ (resolveTimes okWorld endOnlyFlags).res
          = .ok (1704074400000000000, 1704088800000000000)
      ∧ okWorld.now.Add (-1 * Hour * 4) = 1704096000000000000
      ∧ (resolveTimes okWorld endOnlyFlags).res
          ≠ .ok (okWorld.now.Add (-1 * Hour * 4), 1704088800000000000) := by
  refine ⟨rfl, rfl, by decide, ?_⟩
  have h : (resolveTimes okWorld endOnlyFlags).res
      = .ok (1704074400000000000, 1704088800000000000) := rfl
  rw [h]
  intro h2
  have h3 := (Prod.mk.inj (Except.ok.inj h2)).1
  revert h3
  decide

/-- C6, amended. The end time is the current UTC time when `--end-ts` is
omitted and the parsed value otherwise; the start time is the end time minus
four hours when `--start-ts` is omitted (so now − 4h when both are omitted) and
the parsed value otherwise; a value that does not parse stops the export with
the fatal error of line 193 or 202. -/
theorem export_time_window (w : World) (f : Flags) :
    (resolveTimes w f).res
        = (match (if f.end_ = "" then Except.ok w.now else w.parseTime f.end_) with
          | .error err => .error (.main 193 ("Error parsing end date-time: " ++ err) none)
          | .ok endTime =>
            match (if f.start = "" then Except.ok (endTime - 4 * Hour)
                   else w.parseTime f.start) with
            | .error err => .error (.main 202 ("Error parsing start date-time: " ++ err) none)
            | .ok startTime => .ok (startTime, endTime))
      ∧ (f.end_ = "" → f.start = "" →
          (resolveTimes w f).res = .ok (w.now - 4 * Hour, w.now))
      ∧ (∀ sources e, (exportSetup w f).res = .ok sources →
          (resolveTimes w f).res = .error e →
          (exportCmd w f).res = .error e ∧ (exportCmd w f).log = (exportSetup w f).log) := by
  have h1 : (resolveTimes w f).res
      = (match (if f.end_ = "" then Except.ok w.now else w.parseTime f.end_) with
        | .error err => .error (.main 193 ("Error parsing end date-time: " ++ err) none)
        | .ok endTime =>
          match (if f.start = "" then Except.ok (endTime - 4 * Hour)
                 else w.parseTime f.start) with
          | .error err => .error (.main 202 ("Error parsing start date-time: " ++ err) none)
          | .ok startTime => .ok (startTime, endTime)) := by
    unfold resolveTimes
    have hadd : ∀ t : Time, Time.Add t (-(Hour * 4)) = t - 4 * Hour := by
      intro t
      show t + (-(Hour * 4)) = t - 4 * Hour
      ring
    by_cases he : f.end_ = "" <;> by_cases hs : f.start = ""
    · simp [Run.res_bind, he, hs, hadd]
    · rcases hps : w.parseTime f.start with e2 | t2 <;>
        simp [Run.res_bind, he, hs, hps]
    · rcases hpe : w.parseTime f.end_ with e1 | t1 <;>
        simp [Run.res_bind, he, hs, hpe, hadd]
    · rcases hpe : w.parseTime f.end_ with e1 | t1
      · simp [Run.res_bind, he, hs, hpe]
      · rcases hps : w.parseTime f.start with e2 | t2 <;>
          simp [Run.res_bind, he, hs, hpe, hps]
  refine ⟨h1, ?_, ?_⟩
  · intro he hs
    rw [h1]
    simp [he, hs]
  · intro sources e hs ht
    unfold exportCmd
    constructor
    · rw [Run.res_bind_ok _ hs]
      exact Run.res_bind_error _ ht
    · rw [Run.log_bind_ok _ hs]
      show _ ++ ((resolveTimes w f) >>= _).log = _
      rw [Run.log_bind_error _ ht, resolveTimes_log, List.append_nil]

/-- C6 amended, at an export with neither `--start-ts` nor `--end-ts` and a
clock reading 12:00:00Z: the window is 08:00:00Z to 12:00:00Z. -/
theorem export_time_window_witness :
    (resolveTimes okWorld plainFlags).res
      = .ok (1704096000000000000, 1704110400000000000) :=
  ((export_time_window okWorld plainFlags).2.1 rfl rfl).trans rfl

/-! ## Load thresholds -/

/-- The setup of an export logs no step of lines 247-259. -/
theorem exportSetup_no_load_step (w : World) (f : Flags) :
    (exportSetup w f).LogSat (fun ev => ev.isLoadStep = false) := by
  unfold exportSetup filterWarning
  simp [Event.isLoadStep]

/-- The plan of an export logs no step of lines 247-259. -/
theorem exportPlan_no_load_step (w : World) (f : Flags) (sources : List Source)
    (startTime endTime : Time) :
    (exportPlan w f sources startTime endTime).LogSat (fun ev => ev.isLoadStep = false) := by
  unfold exportPlan exportChunks
  simp [Event.isLoadStep]

/-- An export whose plan is made continues with the thresholds, the load
checker and the transfer. -/
theorem exportCmd_after_plan (w : World) (f : Flags) (sources : List Source)
    (startTime endTime : Time) (m : Meta)
    (hs : (exportSetup w f).res = .ok sources)
    (ht : (resolveTimes w f).res = .ok (startTime, endTime))
    (hc : startTime ≤ endTime)
    (hpl : (exportPlan w f sources startTime endTime).res = .ok m) :
    (exportCmd w f).res = (exportTransfer w f m).res
      ∧ (exportCmd w f).log
        = (exportSetup w f).log ++ (exportPlan w f sources startTime endTime).log
            ++ (exportTransfer w f m).log := by
  obtain ⟨_, hres, hlog⟩ := exportCmd_range_passes w f sources startTime endTime hs ht hc
  constructor
  · rw [hres]
    unfold exportAfterCheck
    rw [Run.res_bind_ok _ hpl]
  · rw [hlog]
    unfold exportAfterCheck
    rw [Run.log_bind_ok _ hpl, List.append_assoc]

/-- With `--ignore-load` no export stops at line 251 and none calls the
threshold parser or hands a non-empty list to the load checker. -/
theorem exportCmd_ignoreLoad (w : World) (f : Flags) (hi : f.ignoreLoad = true) :
    (exportCmd w f).FatalSat (fun e => e.line ≠ some 251)
      ∧ (exportCmd w f).LogSat (fun ev =>
          (∀ a b, ev ≠ .parseThresholdList a b) ∧ (∀ ths, ev = .newLoadChecker ths → ths = [])) := by
  unfold exportCmd exportSetup resolveTimes rangeCheck exportAfterCheck exportPlan
    exportChunks exportTransfer loadThresholds filterWarning
  constructor
  · simp [Fatal.line, hi]
  · simp [hi]

/-- C7. With `--ignore-load`, whatever `--max-load` and `--critical-load`
hold, the threshold parser is not called, the load checker receives the empty
list and the export has no exit on the load arguments; without it the load
checker receives exactly the list returned by `ParseThresholdList(max-load,
critical-load)`, and a parse error stops the run at line 251 before the load
checker is built and the export is started. -/
theorem export_load_thresholds (w : World) (f : Flags) (sources : List Source)
    (startTime endTime : Time) (m : Meta)
    (hs : (exportSetup w f).res = .ok sources)
    (ht : (resolveTimes w f).res = .ok (startTime, endTime))
    (hc : startTime ≤ endTime)
    (hpl : (exportPlan w f sources startTime endTime).res = .ok m) :
    (exportCmd w f).log
        = (exportSetup w f).log ++ (exportPlan w f sources startTime endTime).log
            ++ (exportTransfer w f m).log
      ∧ (∀ ev ∈ (exportSetup w f).log ++ (exportPlan w f sources startTime endTime).log,
          ev.isLoadStep = false)
      ∧ (f.ignoreLoad = true →
          (loadThresholds w f).res = .ok [] ∧ (loadThresholds w f).log = []
            ∧ (exportTransfer w f m).log = [.newLoadChecker [], .transferExport m]
            ∧ (exportCmd w f).res
                = (match w.transferExport with
                  | .error err => .error (.main 258 ("Failed to export: " ++ err) none)
                  | .ok _ => .ok ())
            ∧ (exportCmd w f).FatalSat (fun e => e.line ≠ some 251))
      ∧ (f.ignoreLoad = false →
          (∀ ths, w.ParseThresholdList f.maxLoad f.criticalLoad = .ok ths →
            (loadThresholds w f).res = .ok ths
              ∧ (exportTransfer w f m).log
                  = [.parseThresholdList f.maxLoad f.criticalLoad, .newLoadChecker ths,
                     .transferExport m])
          ∧ (∀ err, w.ParseThresholdList f.maxLoad f.criticalLoad = .error err →
              (exportCmd w f).res
                  = .error (.main 251 "Failed to parse max/critical load args" (some err))
                ∧ (exportTransfer w f m).log
                    = [.parseThresholdList f.maxLoad f.criticalLoad])) := by
  obtain ⟨hres, hlog⟩ := exportCmd_after_plan w f sources startTime endTime m hs ht hc hpl
  refine ⟨hlog, ?_, ?_, ?_⟩
  · intro ev hev
    rcases List.mem_append.mp hev with h | h
    · exact exportSetup_no_load_step w f ev h
    · exact exportPlan_no_load_step w f sources startTime endTime ev h
  · intro hi
    refine ⟨by simp [loadThresholds, hi], by simp [loadThresholds, hi], ?_, ?_,
      (exportCmd_ignoreLoad w f hi).1⟩
    · simp [exportTransfer, loadThresholds, hi, Run.log_bind]
    · rw [hres]
      simp [exportTransfer, loadThresholds, hi, Run.res_bind]
      cases w.transferExport <;> rfl
  · intro hi
    constructor
    · intro ths hths
      constructor
      · simp [loadThresholds, hi, hths]
      · simp [exportTransfer, loadThresholds, hi, hths, Run.log_bind]
    · intro err herr
      constructor
      · rw [hres]
        simp [exportTransfer, loadThresholds, hi, herr, Run.res_bind]
      · simp [exportTransfer, loadThresholds, hi, herr, Run.log_bind]

/-- C7, at an export with `--ignore-load --max-load "" --critical-load
nonsense`, arguments the parser of `okWorld` rejects: the export completes and
the load checker is built on the empty list. -/
theorem export_load_thresholds_witness :
    okWorld.ParseThresholdList ignoreLoadFlags.maxLoad ignoreLoadFlags.criticalLoad
        = .error "empty threshold list"
      ∧ (exportTransfer okWorld ignoreLoadFlags fakeDumpMeta).log
          = [.newLoadChecker [], .transferExport fakeDumpMeta]
      ∧ (exportCmd okWorld ignoreLoadFlags).res = .ok () :=
  ⟨rfl,
   ((export_load_thresholds okWorld ignoreLoadFlags [Source.victoriaMetrics]
      1704096000000000000 1704110400000000000 fakeDumpMeta rfl rfl (by decide) rfl).2.2.1
      rfl).2.2.1,
   rfl⟩

/-! ## The message of a failed import -/

/-- The encoding resolution has no fatal exit. -/
@[simp] theorem resolveEncoding_fatalSat (w : World) (f : Flags) (piped : Bool)
    (P : Fatal → Prop) : (resolveEncoding w f piped).FatalSat P := by
  intro e h
  obtain ⟨native, hn⟩ := resolveEncoding_ok w f piped
  rw [hn] at h
  cases h

/-- The guidance is not the empty text. -/
theorem importGuidance_length : importGuidance.length ≠ 0 := by
  have h : importGuidance.length = 237 := by
    unfold importGuidance
    simp only [String.length_append]
    rfl
  omega

/-- Every exit of the transfer part at line 353 carries the message built from
the error of `t.Import`. -/
theorem importTransfer_exit_353 (w : World) (f : Flags) (piped native : Bool) :
    (importTransfer w f piped native).FatalSat (fun e => e.line = some 353 →
      ∃ err, w.transferImport = .error err ∧ e = .main 353 (importFailureMsg err) none) := by
  unfold importTransfer
  rcases hti : w.transferImport with err | u <;> simp [Fatal.line]

/-- Every exit of an import at line 353 carries the message built from the
error of `t.Import`. -/
theorem importCmd_exit_353 (w : World) (f : Flags) :
    (importCmd w f).FatalSat (fun e => e.line = some 353 →
      ∃ err, w.transferImport = .error err ∧ e = .main 353 (importFailureMsg err) none) := by
  unfold importCmd
  rw [Run.fatalSat_bind]
  constructor
  · intro e he h353
    have h2 : (importPrelude w f).FatalSat (fun e => e.line ≠ some 353) := by
      unfold importPrelude
      simp [Fatal.line]
    exact absurd h353 (h2 e he)
  · rintro ⟨cfg, piped⟩ _
    show ((resolveEncoding w f piped) >>= _).FatalSat _
    rw [Run.fatalSat_bind]
    refine ⟨resolveEncoding_fatalSat w f piped _, fun native _ => ?_⟩
    rw [Run.fatalSat_bind]
    constructor
    · unfold encodingCheck
      simp [Fatal.line]
    · intro _ _
      exact importTransfer_exit_353 w f piped native

/-- The guidance of lines 349-351, as one text. -/
theorem importGuidance_text :
    importGuidance
      = ". Consider to use \"vm-content-limit\" option. Also, you can decrease \"chunk-time-range\" or \"chunk-rows\" values. If you use nginx or Apache HTTP Server, consider increasing the maximum size of the client request body in their configuration" := by
  rfl

/-- The transfer part of an import whose steps before `t.Import` succeed ends
as `t.Import` does: a returned error stops the run at line 353 with the
message built from it. -/
theorem importTransfer_res_of_import (w : World) (f : Flags) (piped native okVM okCH : Bool)
    (m : Meta)
    (hvm : w.prepareVictoriaMetricsSource = .ok okVM)
    (hch : w.prepareClickHouseSource = .ok okCH)
    (hpath : ¬ (f.dumpPath = "" ∧ piped = false))
    (hgf : w.getFile = .ok ())
    (htn : w.transfererNew = .ok ())
    (hcm : w.composeMeta = .ok m) :
    (importTransfer w f piped native).res
      = (match w.transferImport with
        | .error err => .error (.main 353 (importFailureMsg err) none)
        | .ok _ => .ok ()) := by
  unfold importTransfer
  rcases hti : w.transferImport with err | u <;>
    simp [Run.res_bind, hvm, hch, hpath, hgf, htn, hcm]

/-- C8. An import whose `t.Import` returns an error stops at line 353 with
the message "Failed to import: " followed by the text of the error and, exactly
when the error is a 413 Request Entity Too Large error, by the guidance (use
vm-content-limit, decrease chunk-time-range or chunk-rows, raise the maximum
request body size of the proxy); for every other error nothing follows the
text of the error; and every exit of an import at line 353 carries this
message for the error returned by `t.Import`. -/
theorem import_failure_message (w : World) (f : Flags) (cfg : PMMConfig)
    (piped native okVM okCH : Bool) (m : Meta) (err : GoError)
    (hp : (importPrelude w f).res = .ok (cfg, piped))
    (hn : (resolveEncoding w f piped).res = .ok native)
    (hc : ¬ (native = true ∧ 0 < f.vmContentLimit))
    (hvm : w.prepareVictoriaMetricsSource = .ok okVM)
    (hch : w.prepareClickHouseSource = .ok okCH)
    (hpath : ¬ (f.dumpPath = "" ∧ piped = false))
    (hgf : w.getFile = .ok ())
    (htn : w.transfererNew = .ok ())
    (hcm : w.composeMeta = .ok m)
    (hti : w.transferImport = .error err) :
    (importCmd w f).res
        = .error (.main 353
            ("Failed to import: " ++ err.text
              ++ (if ErrIsRequestEntityTooLarge err = true then
                    ". Consider to use \"vm-content-limit\" option. Also, you can decrease \"chunk-time-range\" or \"chunk-rows\" values. If you use nginx or Apache HTTP Server, consider increasing the maximum size of the client request body in their configuration"
                  else ""))
            none)
      ∧ (importFailureMsg err
            = "Failed to import: " ++ err.text
              ++ ". Consider to use \"vm-content-limit\" option. Also, you can decrease \"chunk-time-range\" or \"chunk-rows\" values. If you use nginx or Apache HTTP Server, consider increasing the maximum size of the client request body in their configuration"
          ↔ ErrIsRequestEntityTooLarge err = true)
      ∧ (ErrIsRequestEntityTooLarge err = false →
          importFailureMsg err = "Failed to import: " ++ err.text)
      ∧ (∃ suffix, importFailureMsg err = "Failed to import: " ++ err.text ++ suffix)
      ∧ (∀ (w' : World) (f' : Flags) (msg : String) (e : Option String),
          (importCmd w' f').res = .error (.main 353 msg e) →
          ∃ err', w'.transferImport = .error err' ∧ msg = importFailureMsg err' ∧ e = none) := by
  rw [← importGuidance_text]
  refine ⟨?_, ?_, ?_, ?_, ?_⟩
  · rw [(importCmd_check_passes w f cfg piped native hp hn hc).2,
      importTransfer_res_of_import w f piped native okVM okCH m hvm hch hpath hgf htn hcm, hti]
    rfl
  · constructor
    · intro h
      by_contra hne
      have hf : ErrIsRequestEntityTooLarge err = false := by
        cases hb : ErrIsRequestEntityTooLarge err
        · rfl
        · exact absurd hb hne
      unfold importFailureMsg additionalInfo at h
      rw [hf] at h
      have hl := congrArg String.length h
      simp only [String.length_append] at hl
      have := importGuidance_length
      simp at hl
      omega
    · intro h
      unfold importFailureMsg additionalInfo
      rw [h]
      rfl
  · intro h
    unfold importFailureMsg additionalInfo
    rw [h]
    simp
  · exact ⟨additionalInfo err, rfl⟩
  · intro w' f' msg e h
    obtain ⟨err', h1, h2⟩ := importCmd_exit_353 w' f' _ h rfl
    cases h2
    exact ⟨err', h1, rfl, rfl⟩

/-- C8, at an import refused with a 413, which stops at line 353 with the
error text followed by the guidance, and at an import that fails on a refused
connection, which stops there with the error text alone. -/
theorem import_failure_message_witness :
    (importCmd tooLargeWorld plainFlags).res
        = .error (.main 353
            "Failed to import: non-OK response from victoria metrics: 413 Request Entity Too Large. Consider to use \"vm-content-limit\" option. Also, you can decrease \"chunk-time-range\" or \"chunk-rows\" values. If you use nginx or Apache HTTP Server, consider increasing the maximum size of the client request body in their configuration"
            none)
      ∧ (importCmd refusedWorld plainFlags).res
          = .error (.main 353 "Failed to import: connection refused" none) :=
  ⟨(import_failure_message tooLargeWorld plainFlags
      { VictoriaMetricsURL := "http://pmm/prometheus", ClickHouseURL := "tcp://pmm:9000" }
      false false true false fakeDumpMeta tooLargeError rfl rfl (by simp) rfl rfl (by decide)
      rfl rfl rfl rfl).1.trans rfl,
   (import_failure_message refusedWorld plainFlags
      { VictoriaMetricsURL := "http://pmm/prometheus", ClickHouseURL := "tcp://pmm:9000" }
      false false true false fakeDumpMeta { text := "connection refused", tooLarge := false }
      rfl rfl (by simp) rfl rfl (by decide) rfl rfl rfl rfl).1.trans rfl⟩

/-! ## The QAN filter built from `--instance` -/

/-- The loop of lines 175-180, continued after its first round, writes the
text of the conjunction. -/
theorem appendInstanceConds_render (rest : List String) :
    ∀ (i : Nat) (acc : String) (c : Cond), i ≠ 0 → acc = c.render →
      appendInstanceConds i acc rest
        = (rest.foldl (fun acc serviceName => Cond.and acc (Cond.eq "service_name" serviceName))
            c).render := by
  induction rest with
  | nil =>
    intro i acc c _ hacc
    simpa [appendInstanceConds] using hacc
  | cons serviceName rest ih =>
    intro i acc c hi hacc
    rw [appendInstanceConds, List.foldl_cons]
    apply ih (i + 1) _ _ (Nat.succ_ne_zero i)
    rw [if_pos hi, hacc]
    show _ = c.render ++ " AND " ++ ("service_name" ++ "='" ++ serviceName ++ "'")
    have h : "service_name" ++ "='" = "service_name='" := by decide
    rw [h]

/-- Without `--where` and with at least one `--instance`, the `WHERE` text of
the export is the conjunction of one `service_name` equality per instance. -/
theorem qanWhere_instances (f : Flags) (first : String) (rest : List String)
    (hw : f.where_ = "") (hi : f.instances = first :: rest) :
    qanWhere f = (instanceCond first rest).render := by
  unfold qanWhere instanceCond
  rw [hw, hi]
  simp only [List.length_cons, gt_iff_lt, Nat.zero_lt_succ, decide_True, Bool.and_self,
    if_true]
  rw [appendInstanceConds]
  apply appendInstanceConds_render rest 1 _ _ (by decide)
  show ("" ++ ("service_name='" ++ first ++ "'")) = "service_name" ++ "='" ++ first ++ "'"
  have h : "service_name" ++ "='" = "service_name='" := by decide
  rw [h, String.empty_append]

/-- A row passes the conjunction exactly when its `service_name` equals every
listed instance. -/
theorem instanceCond_holds (row : String → String) (first : String) (rest : List String) :
    (instanceCond first rest).holds row = true
      ↔ ∀ serviceName ∈ first :: rest, row "service_name" = serviceName := by
  unfold instanceCond
  have key : ∀ (rest : List String) (c : Cond),
      (rest.foldl (fun acc serviceName => Cond.and acc (Cond.eq "service_name" serviceName))
          c).holds row = true
        ↔ c.holds row = true ∧ ∀ serviceName ∈ rest, row "service_name" = serviceName := by
    intro rest
    induction rest with
    | nil => intro c; simp
    | cons n rest ih =>
      intro c
      rw [List.foldl_cons, ih]
      simp [Cond.holds, and_assoc]
  rw [key]
  simp [Cond.holds]

/-- C9, the code at `--instance a --instance b` without `--where`: the QAN
filter is `service_name='a' AND service_name='b'`, the conjunction of the two
equalities, and a row of service `a` does not pass it, while the core side gets
one selector per instance; a user `--where` is passed on unchanged. -/
theorem qan_filter_rejects_listed_instance :
    twoInstanceFlags.where_ = "" ∧ twoInstanceFlags.instances = ["a", "b"]
      ∧ qanWhere twoInstanceFlags = "service_name='a' AND service_name='b'"
      ∧ qanWhere twoInstanceFlags = (instanceCond "a" ["b"]).render
      ∧ rowOfA "service_name" = "a"
      ∧ (instanceCond "a" ["b"]).holds rowOfA = false
      ∧ coreSelectors twoInstanceFlags []
          = ["\x7bservice_name=\"a\"\x7d", "\x7bservice_name=\"b\"\x7d"]
      ∧ qanWhere { twoInstanceFlags with where_ := "service_type='mongodb'" }
          = "service_type='mongodb'" := by
  refine ⟨rfl, rfl, by decide, by decide, by decide, by decide, by decide, by decide⟩

/-! ## The output of `show-meta` -/

/-- The loop over the services prints four lines per service, in list order,
and returns. -/
theorem printServices_run (services : List PMMServerService) :
    (printServices services).res = .ok ()
      ∧ (printServices services).log
          = ((List.map serviceLines services).flatten).map Event.print := by
  induction services with
  | nil => exact ⟨rfl, rfl⟩
  | cons s rest ih =>
    unfold printServices
    constructor
    · simp [Run.res_bind, ih.1]
    · simp [Run.res_bind, Run.log_bind, ih.2, serviceLines]

/-- The human readable form prints the lines of `prettyLines` and returns. -/
theorem printPretty_run (w : World) (m : Meta) :
    (printPretty w m).res = .ok ()
      ∧ (printPretty w m).log = (prettyLines w m).map Event.print := by
  unfold printPretty prettyLines
  rcases htz : m.PMMTimezone with _ | tz <;> rcases hsv : m.PMMServerServices with _ | ⟨s, rest⟩
  · constructor <;> simp [Run.res_bind, Run.log_bind]
  · constructor
    · simp [Run.res_bind, (printServices_run (s :: rest)).1]
    · simp [Run.res_bind, Run.log_bind, (printServices_run (s :: rest)).2]
  · constructor <;> simp [Run.res_bind, Run.log_bind]
  · constructor
    · simp [Run.res_bind, (printServices_run (s :: rest)).1]
    · simp [Run.res_bind, Run.log_bind, (printServices_run (s :: rest)).2]

/-- C10, refuted as stated: `show-meta` prints the commit of the producing
tool, not its version: the record of version `v0.7.0` and the record of version
`v0.8.0`, written at the same commit, are shown alike, with no line for the
version. -/
theorem show_meta_omits_version :
    sampleMeta.GitVersion = "v0.7.0" ∧ otherVersionMeta.GitVersion = "v0.8.0"
      ∧ sampleMeta.GitCommit = "0a1b2c3" ∧ otherVersionMeta.GitCommit = "0a1b2c3"
      ∧ (showMetaCmd otherVersionWorld plainFlags).log
          = (showMetaCmd sampleMetaWorld plainFlags).log
      ∧ (showMetaCmd sampleMetaWorld plainFlags).log
          = [.checkPiped, .readMetaFromDump "dump.tar.gz" false,
             .print "Build: 0a1b2c3\n",
             .print "PMM Version: 2.41.0\n",
             .print "Max Chunk Size: 617 B (617 B)\n",
             .print "PMM Timezone: UTC\n",
             .print "Arguments: export --dump-qan\n",
             .print "Services:\n",
             .print "\t- Name: mongo\n",
             .print "\t  Node ID: n1\n",
             .print "\t  Node Name: node-1\n",
             .print "\t  Agents ID: [a1 a2]\n",
             .print "\t- Name: mysql\n",
             .print "\t  Node ID: n2\n",
             .print "\t  Node Name: node-2\n",
             .print "\t  Agents ID: []\n"] := by
  refine ⟨rfl, rfl, rfl, rfl, ?_, ?_⟩ <;> decide

/-- C10, amended. For every metadata record that `show-meta` reads, the
prettified output is, in this order, the build line holding the git commit of
the producing tool (its git version and git branch are not printed), the PMM
server version, the max chunk size in decimal and in binary units, the
timezone line exactly when `pmm_timezone` is set, the arguments, and, exactly
when the service list is non-empty, the `Services:` header followed by the
Name, Node ID, Node Name and Agents ID lines of each service in list order. -/
theorem show_meta_prettify (w : World) (f : Flags) (piped : Bool) (m : Meta)
    (hpi : w.checkPiped = .ok piped)
    (hpath : ¬ (f.dumpPath = "" ∧ piped = false))
    (hm : w.readMetaFromDump = .ok m)
    (hpr : f.prettifyMeta = true) :
    (showMetaCmd w f).res = .ok ()
      ∧ (showMetaCmd w f).log
          = [.checkPiped, .readMetaFromDump f.dumpPath piped]
            ++ (prettyLines w m).map Event.print
      ∧ prettyLines w m
          = ["Build: " ++ m.GitCommit ++ "\n",
             "PMM Version: " ++ m.PMMServerVersion ++ "\n",
             "Max Chunk Size: " ++ w.ByteCountDecimal m.MaxChunkSize ++ " ("
               ++ w.ByteCountBinary m.MaxChunkSize ++ ")\n"]
            ++ (m.PMMTimezone.toList.map fun tz => "PMM Timezone: " ++ tz ++ "\n")
            ++ ["Arguments: " ++ m.Arguments ++ "\n"]
            ++ (if m.PMMServerServices = [] then []
                else "Services:\n" :: (List.map serviceLines m.PMMServerServices).flatten)
      ∧ (prettyLines w m).length
          = 4 + (if m.PMMTimezone = none then 0 else 1)
              + (if m.PMMServerServices = [] then 0 else 1 + 4 * m.PMMServerServices.length)
      ∧ (∀ version branch : String,
          prettyLines w { m with GitVersion := version, GitBranch := branch }
            = prettyLines w m) := by
  obtain ⟨hres, hlog⟩ := printPretty_run w m
  have hflat : ∀ l : List PMMServerService,
      ((List.map serviceLines l).flatten).length = 4 * l.length := by
    intro l
    induction l with
    | nil => rfl
    | cons s rest ih =>
      simp only [List.map_cons, List.flatten_cons, List.length_append, ih, List.length_cons]
      simp [serviceLines]
      omega
  refine ⟨?_, ?_, ?_, ?_, fun _ _ => rfl⟩
  · unfold showMetaCmd
    simp [Run.res_bind, hpi, hpath, hm, hpr, hres]
  · unfold showMetaCmd
    simp [Run.res_bind, Run.log_bind, hpi, hpath, hm, hpr, hlog]
  · unfold prettyLines
    rcases htz : m.PMMTimezone with _ | tz <;>
      rcases hsv : m.PMMServerServices with _ | ⟨s, rest⟩ <;> simp
  · unfold prettyLines
    rcases htz : m.PMMTimezone with _ | tz
    · rcases hsv : m.PMMServerServices with _ | ⟨s, rest⟩
      · simp
      · have := hflat rest
        simp [serviceLines, this]
        omega
    · rcases hsv : m.PMMServerServices with _ | ⟨s, rest⟩
      · simp
      · have := hflat rest
        simp [serviceLines, this]
        omega

/-- C10 amended, at a dump whose metadata has a timezone and two services. -/
theorem show_meta_prettify_witness :
    (showMetaCmd sampleMetaWorld plainFlags).log
      = [.checkPiped, .readMetaFromDump "dump.tar.gz" false,
         .print "Build: 0a1b2c3\n",
         .print "PMM Version: 2.41.0\n",
         .print "Max Chunk Size: 617 B (617 B)\n",
         .print "PMM Timezone: UTC\n",
         .print "Arguments: export --dump-qan\n",
         .print "Services:\n",
         .print "\t- Name: mongo\n",
         .print "\t  Node ID: n1\n",
         .print "\t  Node Name: node-1\n",
         .print "\t  Agents ID: [a1 a2]\n",
         .print "\t- Name: mysql\n",
         .print "\t  Node ID: n2\n",
         .print "\t  Node Name: node-2\n",
         .print "\t  Agents ID: []\n"] :=
  ((show_meta_prettify sampleMetaWorld plainFlags false sampleMeta rfl (by decide) rfl rfl).2.1).trans
    (by decide)

/-! ## The chunk check of `validateQAN` -/

/-- The loop over the columns succeeds exactly when every column named `k`
from index `i` on holds `v`; `found` is then set when there is such a column. -/
theorem checkColumns_ok (values : List Value) (k v : String) (cts : List ColumnType) :
    ∀ (i : Nat) (found b : Bool),
      checkColumns values k v i cts found = .ok b
        ↔ (∀ (j : Nat) (ct : ColumnType), cts[j]? = some ct → ct.Name = k →
              values[i + j]? = some (.str v))
            ∧ b = (found || cts.any (fun ct => decide (ct.Name = k))) := by
  induction cts with
  | nil =>
    intro i found b
    simp [checkColumns, eq_comm]
  | cons ct rest ih =>
    intro i found b
    have hsplit : (∀ (j : Nat) (ct' : ColumnType), (ct :: rest)[j]? = some ct' → ct'.Name = k →
          values[i + j]? = some (.str v))
        ↔ (ct.Name = k → values[i]? = some (.str v))
          ∧ ∀ (j : Nat) (ct' : ColumnType), rest[j]? = some ct' → ct'.Name = k →
              values[i + 1 + j]? = some (.str v) := by
      constructor
      · intro h
        refine ⟨fun hk => by simpa using h 0 ct (by simp) hk, fun j ct' hj hk => ?_⟩
        have := h (j + 1) ct' (by simpa using hj) hk
        rwa [show i + (j + 1) = i + 1 + j by omega] at this
      · rintro ⟨h0, hs⟩ j ct' hj hk
        cases j with
        | zero =>
          simp at hj
          subst hj
          simpa using h0 hk
        | succ j =>
          have := hs j ct' (by simpa using hj) hk
          rwa [show i + 1 + j = i + (j + 1) by omega] at this
    rw [hsplit]
    unfold checkColumns
    by_cases hk : ct.Name = k
    · by_cases hv : values[i]? = some (.str v)
      · simp [hk, hv, ih]
      · simp [hk, hv]
    · simp [hk, ih]

/-- The loop over the expected map succeeds exactly when the row passes the
check of every pair. -/
theorem checkPairs_ok (columnTypes : List ColumnType) (values : List Value)
    (equalMap : List (String × String)) :
    checkPairs columnTypes values equalMap = .ok ()
      ↔ ∀ kv ∈ equalMap, PairHolds columnTypes values kv := by
  induction equalMap with
  | nil => simp [checkPairs]
  | cons kv rest ih =>
    obtain ⟨k, v⟩ := kv
    rw [List.forall_mem_cons, ← ih, checkPairs]
    unfold PairHolds
    rcases hc : checkColumns values k v 0 columnTypes false with e | found
    · have hno := (checkColumns_ok values k v columnTypes 0 false
        (columnTypes.any (fun ct => decide (ct.Name = k)))).not.mp (by rw [hc]; simp)
      simp only [Nat.zero_add, Bool.false_or, and_true] at hno
      simp only [reduceCtorEq, false_iff]
      rintro ⟨⟨_, h⟩, _⟩
      exact hno h
    · obtain ⟨hall, hfound⟩ := (checkColumns_ok values k v columnTypes 0 false found).mp hc
      simp only [Nat.zero_add, Bool.false_or] at hall hfound
      cases found
      · have hnone : ¬ ∃ ct ∈ columnTypes, ct.Name = k := by
          rintro ⟨ct, hmem, hn⟩
          have : columnTypes.any (fun ct => decide (ct.Name = k)) = true :=
            List.any_eq_true.mpr ⟨ct, hmem, by simpa using hn⟩
          rw [← hfound] at this
          cases this
        simp [hnone]
      · have hsome : ∃ ct ∈ columnTypes, ct.Name = k := by
          obtain ⟨ct, hmem, hn⟩ := List.any_eq_true.mp hfound.symm
          exact ⟨ct, hmem, by simpa using hn⟩
        simp only [Bool.not_true, Bool.false_eq_true, if_false]
        constructor
        · intro h
          exact ⟨⟨hsome, hall⟩, h⟩
        · rintro ⟨_, h⟩
          exact h

/-- The loop over the rows succeeds exactly when the reader ends with
`io.EOF` and every row has one value per column and passes every pair. -/
theorem validateRows_ok (columnTypes : List ColumnType) (equalMap : List (String × String))
    (rows : List (List Value)) (err : Option String) :
    validateRows columnTypes equalMap rows err = .ok ()
      ↔ err = none
        ∧ ∀ values ∈ rows, values.length = columnTypes.length
            ∧ ∀ kv ∈ equalMap, PairHolds columnTypes values kv := by
  induction rows with
  | nil => cases err <;> simp [validateRows]
  | cons values rest ih =>
    rw [List.forall_mem_cons, ← checkPairs_ok]
    unfold validateRows
    by_cases hl : values.length = columnTypes.length
    · rcases hc : checkPairs columnTypes values equalMap with e | u
      · simp [hl]
      · simp only [hl, ne_eq, not_true_eq_false, if_false, true_and]
        rw [ih]
    · simp [hl]

/-- C11, refuted as stated: on a chunk without rows `validateQAN` returns no
error for the expected pair `service_name = mongo` although the column list
`[queryid]` has no column `service_name`. -/
theorem validateQAN_accepts_missing_column :
    validateQAN noRows [] [⟨"queryid"⟩] [("service_name", "mongo")] = .ok ()
      ∧ ¬ ChunkMatches (noRows [] [⟨"queryid"⟩]) [⟨"queryid"⟩] [("service_name", "mongo")] := by
  refine ⟨rfl, ?_⟩
  rintro ⟨_, _, h⟩
  obtain ⟨⟨ct, hmem, hname⟩, _⟩ := h ("service_name", "mongo") (List.mem_singleton.mpr rfl)
  rw [List.mem_singleton] at hmem
  subst hmem
  revert hname
  decide

/-- C11, amended. `validateQAN` returns no error exactly when the chunk parses
as TSV and every row has one value per column and, for every pair of the
expected map, a column of that name and the value in every column of that
name; the columns are looked up once per row, so on a chunk with at least one
row this is the check the specification describes, and on a chunk without rows
only the parse counts; with an empty expected map only the row shape is
checked. -/
theorem validateQAN_ok_iff (tsvRead : List UInt8 → List ColumnType → TSVRead)
    (data : List UInt8) (columnTypes : List ColumnType) (equalMap : List (String × String)) :
    (validateQAN tsvRead data columnTypes equalMap = .ok ()
        ↔ (tsvRead data columnTypes).err = none
          ∧ ∀ values ∈ (tsvRead data columnTypes).rows,
              values.length = columnTypes.length
                ∧ ∀ kv ∈ equalMap, PairHolds columnTypes values kv)
      ∧ ((tsvRead data columnTypes).rows ≠ [] →
          (validateQAN tsvRead data columnTypes equalMap = .ok ()
            ↔ ChunkMatches (tsvRead data columnTypes) columnTypes equalMap))
      ∧ ((tsvRead data columnTypes).rows = [] →
          (validateQAN tsvRead data columnTypes equalMap = .ok ()
            ↔ (tsvRead data columnTypes).err = none))
      ∧ (validateQAN tsvRead data columnTypes [] = .ok ()
          ↔ (tsvRead data columnTypes).err = none
            ∧ ∀ values ∈ (tsvRead data columnTypes).rows,
                values.length = columnTypes.length) := by
  have hmain := validateRows_ok columnTypes equalMap (tsvRead data columnTypes).rows
    (tsvRead data columnTypes).err
  refine ⟨hmain, ?_, ?_, ?_⟩
  · intro hne
    unfold validateQAN ChunkMatches
    rw [hmain]
    constructor
    · rintro ⟨herr, hrows⟩
      refine ⟨herr, fun values hv => (hrows values hv).1, fun kv hkv => ⟨?_, ?_⟩⟩
      · obtain ⟨first, rest, hfr⟩ := List.exists_cons_of_ne_nil hne
        have hf : first ∈ (tsvRead data columnTypes).rows := by
          rw [hfr]
          exact List.mem_cons_self _ _
        exact ((hrows first hf).2 kv hkv).1
      · intro values hv
        exact ((hrows values hv).2 kv hkv).2
    · rintro ⟨herr, hlen, hpairs⟩
      exact ⟨herr, fun values hv =>
        ⟨hlen values hv, fun kv hkv => ⟨(hpairs kv hkv).1, (hpairs kv hkv).2 values hv⟩⟩⟩
  · intro hnil
    unfold validateQAN
    rw [hmain, hnil]
    simp
  · have h0 := validateRows_ok columnTypes [] (tsvRead data columnTypes).rows
      (tsvRead data columnTypes).err
    unfold validateQAN
    rw [h0]
    simp

/-- C11 amended, at a chunk with the one row `mongo, mongodb` and the expected
map of the third case of `TestQANWhere`. -/
theorem validateQAN_ok_iff_witness :
    validateQAN oneRow [] [⟨"service_name"⟩, ⟨"service_type"⟩]
        [("service_type", "mongodb"), ("service_name", "mongo")] = .ok ()
      ∧ ChunkMatches (oneRow [] [⟨"service_name"⟩, ⟨"service_type"⟩])
          [⟨"service_name"⟩, ⟨"service_type"⟩]
          [("service_type", "mongodb"), ("service_name", "mongo")] :=
  ⟨rfl,
   ((validateQAN_ok_iff oneRow [] [⟨"service_name"⟩, ⟨"service_type"⟩]
      [("service_type", "mongodb"), ("service_name", "mongo")]).2.1 (by decide)).mp rfl⟩

/-! ## The warning about a filter for one side only -/

/-- An export whose `parseURL` and `auth` return and that has a data source
logs the filter warning, if any, and goes on to `getPMMConfig`. -/
theorem exportCmd_log_through_warning (w : World) (f : Flags)
    (h1 : w.parseURL = none) (h2 : w.auth = none)
    (hsrc : (f.dumpQAN || f.dumpCore) = true) :
    [Event.newClientHTTP, .parseURL, .auth] ++ (filterWarning f).log ++ [.getPMMConfig]
      <+: (exportCmd w f).log := by
  have hset : [Event.newClientHTTP, .parseURL, .auth] ++ (filterWarning f).log
      ++ [.getPMMConfig] <+: (exportSetup w f).log := by
    unfold exportSetup
    have hw := filterWarning_res f
    rcases hg : w.getPMMConfig with e | cfg
    · simp [Run.res_bind, Run.log_bind, h1, h2, hsrc, hw]
    · simp [Run.res_bind, Run.log_bind, h1, h2, hsrc, hw]
  refine hset.trans ?_
  unfold exportCmd
  rw [Run.log_bind]
  cases (exportSetup w f).res
  · exact List.prefix_refl _
  · exact List.prefix_append _ _

/-- C12, refuted as stated: with `--instance a`, only `--ts-selector` given
brings no warning and the QAN side is filtered by the instance; with
`--dashboard MySQL`, neither `--where` nor `--ts-selector` given brings the
warning that names QAN, and only `--where` given brings no warning. -/
theorem one_sided_filter_warning_depends_on_instances :
    (instanceSelectorFlags.dumpCore = true ∧ instanceSelectorFlags.dumpQAN = true
        ∧ instanceSelectorFlags.where_ = "" ∧ instanceSelectorFlags.tsSelector ≠ ""
        ∧ (filterWarning instanceSelectorFlags).log = []
        ∧ qanWhere instanceSelectorFlags = "service_name='a'")
      ∧ (dashboardOnlyFlags.dumpCore = true ∧ dashboardOnlyFlags.dumpQAN = true
        ∧ dashboardOnlyFlags.where_ = "" ∧ dashboardOnlyFlags.tsSelector = ""
        ∧ (filterWarning dashboardOnlyFlags).log
            = [.warn "Filter for core dump found, but not for QAN. QAN metrics for all metrics would be exported"])
      ∧ (whereDashboardFlags.dumpCore = true ∧ whereDashboardFlags.dumpQAN = true
        ∧ whereDashboardFlags.where_ ≠ "" ∧ whereDashboardFlags.tsSelector = ""
        ∧ (filterWarning whereDashboardFlags).log = []) := by
  refine ⟨⟨rfl, rfl, rfl, by decide, rfl, by decide⟩, ⟨rfl, rfl, rfl, rfl, rfl⟩,
    ⟨rfl, rfl, by decide, rfl, rfl⟩⟩

/-- C12, amended. With `--dump-core` and `--dump-qan` both set and no
`--instance`, a core filter being a `--ts-selector` or at least one
`--dashboard`: when a core filter is given without `--where` the export warns
that QAN is not filtered and hands ClickHouse an empty `WHERE`; when `--where`
is given without a core filter it warns that core is not filtered and adds no
selector; when both or neither are given it logs no warning; the warning never
stops the run, which goes on to `getPMMConfig`.  With an `--instance` no
warning is logged. -/
theorem filter_warning_one_sided (f : Flags)
    (hq : f.dumpQAN = true) (hc : f.dumpCore = true) :
    (filterWarning f).res = .ok ()
      ∧ (f.instances = [] →
          (f.where_ = "" → (f.tsSelector ≠ "" ∨ f.dashboards ≠ []) →
              (filterWarning f).log
                  = [.warn "Filter for core dump found, but not for QAN. QAN metrics for all metrics would be exported"]
                ∧ qanWhere f = "")
            ∧ (f.where_ ≠ "" → f.tsSelector = "" → f.dashboards = [] →
              (filterWarning f).log
                  = [.warn "Filter for QAN found, but not for core dump. Core metrics for all metrics would be exported"]
                ∧ ∀ selectors, coreSelectors f selectors = selectors)
            ∧ (f.where_ ≠ "" → (f.tsSelector ≠ "" ∨ f.dashboards ≠ []) →
              (filterWarning f).log = [])
            ∧ (f.where_ = "" → f.tsSelector = "" → f.dashboards = [] →
              (filterWarning f).log = []))
      ∧ (f.instances ≠ [] → (filterWarning f).log = [])
      ∧ (∀ w : World, w.parseURL = none → w.auth = none →
          [Event.newClientHTTP, .parseURL, .auth] ++ (filterWarning f).log ++ [.getPMMConfig]
            <+: (exportCmd w f).log) := by
  have hdl : ∀ l : List String, l ≠ [] → 0 < l.length := fun l hl =>
    List.length_pos.mpr hl
  refine ⟨filterWarning_res f, ?_, ?_, ?_⟩
  · intro hi
    refine ⟨?_, ?_, ?_, ?_⟩
    · intro hw hcore
      constructor
      · rcases hcore with ht | hd
        · simp [filterWarning, hq, hc, hi, hw, ht]
        · simp [filterWarning, hq, hc, hi, hw, hdl _ hd]
      · simp [qanWhere, hw, hi]
    · intro hw ht hd
      constructor
      · simp [filterWarning, hq, hc, hi, hd, hw, ht]
      · intro selectors
        simp [coreSelectors, ht, hi]
    · intro hw hcore
      rcases hcore with ht | hd
      · simp [filterWarning, hq, hc, hi, hw, ht]
      · have hne : f.dashboards.length ≠ 0 := Nat.pos_iff_ne_zero.mp (hdl _ hd)
        simp [filterWarning, hq, hc, hi, hw, hne]
    · intro hw ht hd
      simp [filterWarning, hq, hc, hi, hd, hw, ht]
  · intro hi
    have hlen : f.instances.length ≠ 0 := by
      intro h0
      exact hi (List.length_eq_zero.mp h0)
    simp [filterWarning, hq, hc, hlen]
  · intro w h1 h2
    exact exportCmd_log_through_warning w f h1 h2 (by simp [hq])

/-- C12 amended, at `pmm-dump export --dump-qan --where service_name='mongo'`,
where the warning names the core side and the export completes, and at an
export with two dashboards and no `--where`, where the warning names QAN. -/
theorem filter_warning_one_sided_witness :
    (filterWarning whereOnlyFlags).log
        = [.warn "Filter for QAN found, but not for core dump. Core metrics for all metrics would be exported"]
      ∧ (exportCmd okWorld whereOnlyFlags).res = .ok ()
      ∧ (filterWarning twoDashboardFlags).log
          = [.warn "Filter for core dump found, but not for QAN. QAN metrics for all metrics would be exported"] :=
  ⟨(((filter_warning_one_sided whereOnlyFlags rfl rfl).2.1 rfl).2.1 (by decide) rfl rfl).1,
   rfl,
   (((filter_warning_one_sided twoDashboardFlags rfl rfl).2.1 rfl).1 rfl
      (Or.inr (by decide))).1⟩

end PmmDump
